import Mathlib

/-!
Shallow embedding of the hearing-aid control pipeline
(`src/llm/safety.py`, `src/llm/decision_engine.py`,
`src/audio/extractor.py`, `src/audio/processor.py`).

Modelling conventions, fixed once here:
* Python floats are modelled exactly: as `ℚ` in the decision/validation
  layer (all of whose arithmetic is rational) and as `ℝ` in the audio
  layer (which uses `exp`, `log`, `sqrt`).  Non-finite values (NaN/inf)
  are outside the model.
* A Python function that can raise for an input is modelled as an
  `Option`-valued function, `none` standing for the raised exception.
* Python dictionaries (strategy dictionaries) are association lists in
  insertion order; `dictSet` updates the first matching key in place and
  appends fresh keys at the end, exactly the observable behaviour of a
  Python dict under item assignment.
* `str(dict)` rendering is modelled faithfully for the value shapes the
  repository produces: single-quoted strings (escape sequences inside
  them are not modelled), `True`/`False` for booleans, decimal integers,
  and a terminating decimal expansion for floats.
* `float(x)` on a string is modelled for plain decimal literals; any
  other string models Python raising `ValueError`.
-/

namespace HearingAid

/-- A Python value as it occurs in the strategy/outcome dictionaries of
this repository: strings, ints, floats and booleans. -/
inductive PyVal where
  | str (s : String)
  | int (n : ℤ)
  | float (q : ℚ)
  | bool (b : Bool)
  deriving DecidableEq, Repr

/-- A strategy dictionary: keys to values, in insertion order. -/
abbrev StrategyDict := List (String × PyVal)

/-- `d.get(k, default)` on a Python dict. -/
def dictGet (s : StrategyDict) (k : String) (d : PyVal) : PyVal :=
  match s with
  | [] => d
  | (k0, v0) :: rest => if k0 = k then v0 else dictGet rest k d

/-- `k in d` on a Python dict. -/
def dictHasKey (s : StrategyDict) (k : String) : Bool :=
  match s with
  | [] => false
  | (k0, _) :: rest => if k0 = k then true else dictHasKey rest k

/-- `d[k] = v` on a Python dict: replaces the value of an existing key in
place, appends a new key at the end. -/
def dictSet (s : StrategyDict) (k : String) (v : PyVal) : StrategyDict :=
  match s with
  | [] => [(k, v)]
  | (k0, v0) :: rest => if k0 = k then (k0, v) :: rest else (k0, v0) :: dictSet rest k v

/-- Numeric value of a run of decimal digit characters. -/
def digitsVal (cs : List Char) : ℕ :=
  cs.foldl (fun a c => a * 10 + (c.toNat - 48)) 0

/-- Unsigned plain decimal literal: digits, optionally followed by a dot
and more digits. -/
def parseUnsignedDecimal (cs : List Char) : Option ℚ :=
  let ip := cs.takeWhile Char.isDigit
  let rest := cs.dropWhile Char.isDigit
  if ip = [] then none
  else match rest with
    | [] => some (digitsVal ip)
    | c :: fps =>
      if c = Char.ofNat 46 ∧ fps ≠ [] ∧ fps.all Char.isDigit then
        some ((digitsVal ip : ℚ) + (digitsVal fps : ℚ) / 10 ^ fps.length)
      else none

/-- `float(s)` for a string `s`, modelled for plain decimal literals
(optional sign, digits, optional fraction); other strings model Python
raising `ValueError`. -/
def parseDecimal (s : String) : Option ℚ :=
  match s.toList with
  | [] => none
  | c :: rest =>
    if c = Char.ofNat 45 then (parseUnsignedDecimal rest).map Neg.neg
    else if c = Char.ofNat 43 then parseUnsignedDecimal rest
    else parseUnsignedDecimal (c :: rest)

/-- `int(s)` for a string `s`: optional sign then digits only. -/
def parseIntStr (s : String) : Option ℤ :=
  match s.toList with
  | [] => none
  | c :: rest =>
    if c = Char.ofNat 45 then
      if rest ≠ [] ∧ rest.all Char.isDigit then some (-(digitsVal rest : ℤ)) else none
    else if c = Char.ofNat 43 then
      if rest ≠ [] ∧ rest.all Char.isDigit then some (digitsVal rest) else none
    else
      if (c :: rest).all Char.isDigit then some (digitsVal (c :: rest)) else none

/-- Truncation toward zero, the behaviour of Python `int()` on a float. -/
def ratTrunc (q : ℚ) : ℤ :=
  if 0 ≤ q then ⌊q⌋ else -⌊-q⌋

/-- `float(x)` on a Python value (`bool` is an `int` subtype in Python). -/
def pyFloat : PyVal → Option ℚ
  | .str s => parseDecimal s
  | .int n => some n
  | .float q => some q
  | .bool b => some (if b then 1 else 0)

/-- `int(x)` on a Python value. -/
def pyToInt : PyVal → Option ℤ
  | .str s => parseIntStr s
  | .int n => some n
  | .float q => some (ratTrunc q)
  | .bool b => some (if b then 1 else 0)

/-- Python truthiness of a value. -/
def pyTruthy : PyVal → Bool
  | .str s => s ≠ ""
  | .int n => n ≠ 0
  | .float q => q ≠ 0
  | .bool b => b

/-- The single-quote character, used by Python `repr` for strings. -/
def squote : String := (Char.ofNat 39).toString

/-- Decimal digits of `num/den` after the point, most significant first,
with enough fuel to terminate; used to render the fractional part of a
float. -/
def fracDigits : ℕ → ℕ → ℕ → List Char
  | 0, _, _ => []
  | _, 0, _ => []
  | _, _, 0 => []
  | fuel + 1, num, den + 1 =>
    let d := num * 10 / (den + 1)
    Char.ofNat (48 + d % 10) :: fracDigits fuel (num * 10 % (den + 1)) (den + 1)

/-- Strip trailing zero digits (Python float repr never ends in
redundant zeros, but always keeps one fractional digit). -/
def dropTrailingZeros (cs : List Char) : List Char :=
  (cs.reverse.dropWhile (fun c => c = Char.ofNat 48)).reverse

/-- Python `repr` of a float modelled as a rational with terminating
decimal expansion (binary floats always have one). -/
def floatRepr (q : ℚ) : String :=
  let sign := if q < 0 then "-" else ""
  let a := |q|
  let ip := (⌊a⌋).toNat
  let fr := a - (ip : ℚ)
  let ds := dropTrailingZeros (fracDigits 60 fr.num.natAbs fr.den)
  sign ++ toString ip ++ "." ++ (if ds = [] then "0" else String.mk ds)

/-- Python `repr` of one dictionary value. -/
def pyReprVal : PyVal → String
  | .str s => squote ++ s ++ squote
  | .int n => toString n
  | .float q => floatRepr q
  | .bool b => if b then "True" else "False"

/-- Concatenate with a separator. -/
def joinSep (sep : String) : List String → String
  | [] => ""
  | [s] => s
  | s :: rest => s ++ sep ++ joinSep sep rest

/-- Python `str` of a strategy dictionary. -/
def pyReprDict (s : StrategyDict) : String :=
  "\x7b" ++ joinSep ", " (s.map fun p => squote ++ p.1 ++ squote ++ ": " ++ pyReprVal p.2) ++ "\x7d"

/-- `str.lower()` (the repository only renders ASCII keys and values). -/
def strLower (s : String) : String := String.mk (s.toList.map Char.toLower)

/-- `needle in hay` on strings: substring containment. -/
def strContains (hay needle : String) : Bool :=
  let h := hay.toList
  let p := needle.toList
  (List.range (h.length + 1)).any fun i => p.isPrefixOf (h.drop i)

namespace SafetyValidator

/-! ### `src/llm/safety.py`, class `SafetyValidator` -/

def maxNoiseSuppression : ℚ := 0.95
def minNoiseSuppression : ℚ := 0.0
def maxSpeechEnhancement : ℚ := 0.9
def minSpeechEnhancement : ℚ := 0.0
def maxCompressionRatioQ : ℚ := 8.0
def minCompressionRatioQ : ℚ := 1.0
def maxHighFreqBoost : ℚ := 10.0
def minHighFreqBoost : ℚ := -0.5
def maxLowFreqReduction : ℚ := 0.0
def minLowFreqReduction : ℚ := -12.0
def maxAdaptiveGain : ℚ := 2.0
def minAdaptiveGain : ℚ := 0.3
def minNoiseGateThreshold : ℚ := -60.0
def maxNoiseGateThreshold : ℚ := -10.0
def minDecisionDuration : ℤ := 10
def maxDecisionDuration : ℤ := 3600

def allowedFrequencyProfiles : List String :=
  ["neutral", "speech_optimized", "clarity_boost", "comfort_focus"]

def prohibitedTerms : List String :=
  ["raw audio", "waveform", "sample rate", "fft", "coefficient",
   "impulse response", "filter design", "dsp", "digital signal"]

def requiredFields : List String :=
  ["strategy_name",
   "noise_suppression_strength",
   "speech_enhancement_strength",
   "compression_ratio",
   "high_freq_boost_db",
   "rationale",
   "confidence",
   "duration_seconds",
   "is_reversible"]

/-- One violation appended by `validate_strategy`.  The source appends a
formatted message string at each site; each constructor stands for one
such site and carries the data interpolated into that message (the
bounds themselves are the fixed class constants above). -/
inductive Violation where
  | prohibitedTerm (term : String)
  | missingField (field : String)
  | noiseSuppressionOutOfBounds (v : ℚ)
  | speechEnhancementOutOfBounds (v : ℚ)
  | compressionRatioOutOfBounds (v : ℚ)
  | highFreqBoostOutOfBounds (v : ℚ)
  | lowFreqReductionOutOfBounds (v : ℚ)
  | invalidFrequencyProfile (p : PyVal)
  | confidenceOutOfBounds (v : ℚ)
  | durationTooShort (d : ℤ)
  | durationTooLong (d : ℤ)
  | notReversible
  | rationaleTooShort
  deriving DecidableEq, Repr

/-- One warning appended by `validate_strategy`. -/
inductive Warning where
  | lowConfidence (conf : ℚ)
  | highAggressiveness (score : ℚ)
  deriving DecidableEq, Repr

/-- Result of safety validation (`SafetyCheck` dataclass). -/
structure SafetyCheck where
  is_safe : Bool
  violations : List Violation
  warnings : List Warning
  message : String
  deriving DecidableEq, Repr

/-- Step 1 of `validate_strategy`: scan `str(strategy).lower()` for each
prohibited term, in order. -/
def termViolations (s : StrategyDict) : List Violation :=
  prohibitedTerms.filterMap fun t =>
    if strContains (strLower (pyReprDict s)) t then some (.prohibitedTerm t) else none

/-- Step 2 of `validate_strategy`: report each missing required field, in
order. -/
def missingFieldViolations (s : StrategyDict) : List Violation :=
  requiredFields.filterMap fun f =>
    if dictHasKey s f then none else some (.missingField f)

/-- Message of the early return taken when structural checks fail. -/
def structuralFailMessage (n : ℕ) : String :=
  "Safety validation FAILED: " ++ toString n ++ " critical violation(s)"

/-- Final message of `validate_strategy` (steps at the end of the
source function). -/
def finalMessage (violations : List Violation) (warnings : List Warning) : String :=
  if violations ≠ [] then
    "❌ Safety FAILED: " ++ toString violations.length ++ " violation(s)" ++
      (if warnings ≠ [] then " + " ++ toString warnings.length ++ " warning(s)" else "")
  else if warnings ≠ [] then
    "⚠️ Safety PASSED with " ++ toString warnings.length ++ " warning(s)"
  else
    "✅ Safety validation PASSED - All constraints respected"

/-- `SafetyValidator.validate_strategy`.  `none` models an exception
raised by a `float()`/`int()` conversion on a non-numeric string. -/
def validate_strategy (strategy : StrategyDict) : Option SafetyCheck :=
  let v0 := termViolations strategy ++ missingFieldViolations strategy
  -- Skip parameter checks if required fields are missing (or a term was found)
  if v0 ≠ [] then
    some ⟨false, v0, [], structuralFailMessage v0.length⟩
  else do
    let ns ← pyFloat (dictGet strategy "noise_suppression_strength" (.float 0.5))
    let se ← pyFloat (dictGet strategy "speech_enhancement_strength" (.float 0.0))
    let cr ← pyFloat (dictGet strategy "compression_ratio" (.float 1.0))
    let hfb ← pyFloat (dictGet strategy "high_freq_boost_db" (.float 0.0))
    let lfr ← pyFloat (dictGet strategy "low_freq_reduction_db" (.float 0.0))
    let fp := dictGet strategy "frequency_profile" (.str "neutral")
    let conf ← pyFloat (dictGet strategy "confidence" (.float 0.5))
    let dur ← pyToInt (dictGet strategy "duration_seconds" (.int 30))
    let rationaleOk :=
      match dictGet strategy "rationale" (.str "") with
      | .str r => decide (20 ≤ r.length)
      | _ => false
    let violations : List Violation :=
      (if ns < minNoiseSuppression ∨ maxNoiseSuppression < ns then
        [.noiseSuppressionOutOfBounds ns] else []) ++
      (if se < minSpeechEnhancement ∨ maxSpeechEnhancement < se then
        [.speechEnhancementOutOfBounds se] else []) ++
      (if cr < minCompressionRatioQ ∨ maxCompressionRatioQ < cr then
        [.compressionRatioOutOfBounds cr] else []) ++
      (if hfb < minHighFreqBoost ∨ maxHighFreqBoost < hfb then
        [.highFreqBoostOutOfBounds hfb] else []) ++
      (if lfr < minLowFreqReduction ∨ maxLowFreqReduction < lfr then
        [.lowFreqReductionOutOfBounds lfr] else []) ++
      (match fp with
       | .str p => if p ∈ allowedFrequencyProfiles then [] else [.invalidFrequencyProfile fp]
       | _ => [.invalidFrequencyProfile fp]) ++
      (if conf < 0.0 ∨ 1.0 < conf then [.confidenceOutOfBounds conf] else []) ++
      (if dur < minDecisionDuration then [.durationTooShort dur] else []) ++
      (if maxDecisionDuration < dur then [.durationTooLong dur] else []) ++
      (if pyTruthy (dictGet strategy "is_reversible" (.bool false)) then [] else
        [.notReversible]) ++
      (if rationaleOk then [] else [.rationaleTooShort])
    let warnings : List Warning :=
      (if conf < 0.5 then [.lowConfidence conf] else []) ++
      (if 2.0 < ns + se + (cr - 1.0) / 7.0 + hfb / 10.0 then
        [.highAggressiveness (ns + se + (cr - 1.0) / 7.0 + hfb / 10.0)] else [])
    some ⟨violations = [], violations, warnings, finalMessage violations warnings⟩

/-- Clamp `x` into `[lo, hi]` the way the source does:
`max(lo, min(hi, x))`. -/
def clampQ (lo hi x : ℚ) : ℚ := max lo (min hi x)

/-- One clamping step of `apply_safety_bounds`: read the field (with its
default), convert with `float()`, clamp, store back. -/
def boundField (lo hi : ℚ) (key : String) (dflt : ℚ) (s : StrategyDict) :
    Option StrategyDict := do
  let v ← pyFloat (dictGet s key (.float dflt))
  pure (dictSet s key (.float (clampQ lo hi v)))

/-- `SafetyValidator.apply_safety_bounds`: clips the five processing
fields into their bounds, in source order, leaving every other key
untouched.  `none` models a `float()` exception. -/
def apply_safety_bounds (strategy : StrategyDict) : Option StrategyDict := do
  let s1 ← boundField minNoiseSuppression maxNoiseSuppression
    "noise_suppression_strength" 0.5 strategy
  let s2 ← boundField minSpeechEnhancement maxSpeechEnhancement
    "speech_enhancement_strength" 0.0 s1
  let s3 ← boundField minCompressionRatioQ maxCompressionRatioQ
    "compression_ratio" 1.0 s2
  let s4 ← boundField minHighFreqBoost maxHighFreqBoost
    "high_freq_boost_db" 0.0 s3
  boundField minLowFreqReduction maxLowFreqReduction
    "low_freq_reduction_db" 0.0 s4

end SafetyValidator

namespace DecisionEngine

/-! ### `src/llm/decision_engine.py`, class `DecisionEngine`

The external LLM call (`_call_llm_reasoning` / `_get_llm_decision`) is a
stub in the source; functions that consume its output are parameterised
over the candidate strategy it returns.  `datetime.now()` timestamps are
parameterised as strings. -/

open SafetyValidator

def minActionDurationSeconds : ℤ := 10

/-- The `Decision` dataclass. -/
structure Decision where
  primary_action : StrategyDict
  confidence : ℚ
  rationale : String
  duration_seconds : ℤ
  secondary_adjustments : List StrategyDict
  is_reversible : Bool
  timestamp : String
  deriving DecidableEq, Repr

/-- The `primary_action` dictionary built by
`DecisionEngine._fallback_conservative_decision`. -/
def fallbackPrimaryAction : StrategyDict :=
  [("strategy_name", .str "minimal_intervention_monitoring"),
   ("noise_suppression_strength", .float 0.3),
   ("speech_enhancement_strength", .float 0.0),
   ("compression_ratio", .float 1.0),
   ("high_freq_boost_db", .float 0.0),
   ("frequency_profile", .str "neutral")]

/-- `DecisionEngine._fallback_conservative_decision` (the observation
argument is unused by the source body except for logging). -/
def fallback_conservative_decision (timestamp : String) : Decision :=
  { primary_action := fallbackPrimaryAction
    confidence := 0.6
    rationale := "Safety check failed. Using minimal intervention while monitoring."
    duration_seconds := minActionDurationSeconds
    secondary_adjustments :=
      [[("condition", .str "if_safety_cleared"),
        ("adjustment", .str "return_to_previous_strategy")]]
    is_reversible := true
    timestamp := timestamp }

/-- The ACT phase of the first `decide_strategy` definition (the ORAL
cycle, lines 112-118): validate the candidate decision; on failure
substitute the conservative fallback and re-validate it.  Returns the
emitted decision together with the safety check returned to the caller. -/
def oralActPhase (timestamp : String) (candidate : Decision) :
    Option (Decision × SafetyCheck) := do
  let safetyCheck ← validate_strategy candidate.primary_action
  if safetyCheck.is_safe then
    pure (candidate, safetyCheck)
  else do
    let fb := fallback_conservative_decision timestamp
    let safetyCheck2 ← validate_strategy fb.primary_action
    pure (fb, safetyCheck2)

/-- The second (and, in Python, the effective) `decide_strategy`
definition, lines 391-425, as a function of the candidate dictionary
returned by the LLM stub: validate, and on failure return the candidate
clamped by `apply_safety_bounds` (recording is modelled separately by
`record_decision`). -/
def decide_strategy (enableSafety : Bool) (candidate : StrategyDict) :
    Option StrategyDict :=
  if enableSafety then do
    let safetyCheck ← validate_strategy candidate
    if safetyCheck.is_safe then
      pure candidate
    else
      apply_safety_bounds candidate
  else
    pure candidate

/-- The fixed mock decision returned by `DecisionEngine._get_llm_decision`. -/
def mockLlmDecision : StrategyDict :=
  [("noise_suppression_strength", .float 0.6),
   ("speech_enhancement_level", .float 0.5),
   ("dynamic_range_compression_ratio", .float 3.0),
   ("high_frequency_boost", .float 2.0),
   ("low_frequency_reduction", .float (-3.0)),
   ("adaptive_gain", .float 1.0),
   ("noise_gate_threshold", .float (-40.0)),
   ("rationale", .str "Moderate processing for typical office environment with some background noise"),
   ("confidence", .float 0.85)]

/-- Outcome dictionary consumed by `_compute_effectiveness`; the two
keys the source reads, with the defaults of its `.get` calls. -/
structure FeedbackOutcome where
  asr_confidence_change : ℚ := 0
  user_override : Bool := false
  deriving DecidableEq, Repr

/-- `DecisionEngine._compute_effectiveness`. -/
def compute_effectiveness (outcome : FeedbackOutcome)
    (user_satisfaction : Option ℚ) : ℚ :=
  let e0 : ℚ := 0.5
  let e1 := e0 + outcome.asr_confidence_change * 0.5
  let e2 :=
    match user_satisfaction with
    | some s => e1 + (s - 50) / 50 * 0.3
    | none => e1
  let e3 := if outcome.user_override then e2 - 0.3 else e2
  max (-1.0) (min 1.0 e3)

/-- The effectiveness formula exactly as the specification words it
(§4.2 Learn): clamp(0.5 + 0.5·asr + [0.3·((sat−50)/50)] − [0.3 if
override], −1, 1).  Stated separately to be compared with the source
function `compute_effectiveness`. -/
def effectivenessSpecFormula (asr : ℚ) (sat : Option ℚ) (override : Bool) : ℚ :=
  max (-1)
    (min 1
      (0.5 + 0.5 * asr +
        (match sat with | some s => 0.3 * ((s - 50) / 50) | none => 0) -
        (if override then 0.3 else 0)))

/-- `DecisionEngine._record_decision`, restricted to its effect on the
history list (the shape of the appended record does not affect
retention, so the element type is a parameter). -/
def record_decision {α : Type} (history : List α) (record : α) : List α :=
  let h := history ++ [record]
  -- Keep history size manageable
  if 10000 < h.length then h.drop (h.length - 5000) else h

end DecisionEngine

namespace Inputs

/-! ### Concrete inputs used by counterexamples and witnesses -/

open SafetyValidator DecisionEngine

/-- A candidate whose `noise_suppression_strength` (2.0) is out of range
and whose other fields are all valid. -/
def cand3 : StrategyDict :=
  [("strategy_name", .str "aggressive_cleanup"),
   ("noise_suppression_strength", .float 2.0),
   ("speech_enhancement_strength", .float 0.2),
   ("compression_ratio", .float 2.0),
   ("high_freq_boost_db", .float 1.0),
   ("low_freq_reduction_db", .float (-3.0)),
   ("frequency_profile", .str "neutral"),
   ("confidence", .float 0.7),
   ("rationale", .str "Strong cleanup requested for a loud environment"),
   ("duration_seconds", .int 30),
   ("is_reversible", .bool true)]

/-- `cand3` after `apply_safety_bounds`: identical except that
`noise_suppression_strength` is clipped to 0.95. -/
def cand3Clamped : StrategyDict :=
  [("strategy_name", .str "aggressive_cleanup"),
   ("noise_suppression_strength", .float 0.95),
   ("speech_enhancement_strength", .float 0.2),
   ("compression_ratio", .float 2.0),
   ("high_freq_boost_db", .float 1.0),
   ("low_freq_reduction_db", .float (-3.0)),
   ("frequency_profile", .str "neutral"),
   ("confidence", .float 0.7),
   ("rationale", .str "Strong cleanup requested for a loud environment"),
   ("duration_seconds", .int 30),
   ("is_reversible", .bool true)]

/-- A structurally valid strategy whose checked fields are all in range
but whose `adaptive_gain` (5.0) and `noise_gate_threshold_db` (−100.0)
are far outside their documented bounds. -/
def strat4 : StrategyDict :=
  [("strategy_name", .str "clarity_tuning"),
   ("noise_suppression_strength", .float 0.5),
   ("speech_enhancement_strength", .float 0.2),
   ("compression_ratio", .float 2.0),
   ("high_freq_boost_db", .float 1.0),
   ("low_freq_reduction_db", .float (-3.0)),
   ("frequency_profile", .str "neutral"),
   ("confidence", .float 0.7),
   ("rationale", .str "Moderate settings chosen for a calm office environment"),
   ("duration_seconds", .int 30),
   ("is_reversible", .bool true),
   ("adaptive_gain", .float 5.0),
   ("noise_gate_threshold_db", .float (-100.0))]

/-- A strategy whose only key is an out-of-bounds `adaptive_gain`. -/
def strat6 : StrategyDict := [("adaptive_gain", .float 5.0)]

/-- `strat6` after `apply_safety_bounds`: the five clamped fields are
added at their (in-range) defaults, `adaptive_gain` is left at 5.0. -/
def strat6Bounded : StrategyDict :=
  [("adaptive_gain", .float 5.0),
   ("noise_suppression_strength", .float 0.5),
   ("speech_enhancement_strength", .float 0.0),
   ("compression_ratio", .float 1.0),
   ("high_freq_boost_db", .float 0.0),
   ("low_freq_reduction_db", .float 0.0)]

/-- A structurally valid strategy whose name contains the prohibited
term "fft" and whose `noise_suppression_strength` (2.0) is also out of
range. -/
def strat10 : StrategyDict :=
  [("strategy_name", .str "fft_boost_plan"),
   ("noise_suppression_strength", .float 2.0),
   ("speech_enhancement_strength", .float 0.2),
   ("compression_ratio", .float 2.0),
   ("high_freq_boost_db", .float 1.0),
   ("frequency_profile", .str "neutral"),
   ("confidence", .float 0.7),
   ("rationale", .str "Plan named after a transform family"),
   ("duration_seconds", .int 30),
   ("is_reversible", .bool true)]

/-- A candidate decision whose `primary_action` is the empty dictionary,
hence fails validation with nine missing-field violations. -/
def emptyCandidate : Decision :=
  { primary_action := []
    confidence := 0.5
    rationale := "placeholder candidate from a failed advisor call"
    duration_seconds := 30
    secondary_adjustments := []
    is_reversible := true
    timestamp := "t0" }

/-- The safety check produced for the empty strategy dictionary. -/
def emptyCheck : SafetyCheck :=
  { is_safe := false
    violations := requiredFields.map .missingField
    warnings := []
    message := structuralFailMessage 9 }

/-- The safety check produced when re-validating the conservative
fallback action: four required fields are missing from it. -/
def fallbackCheck : SafetyCheck :=
  { is_safe := false
    violations :=
      [.missingField "rationale", .missingField "confidence",
       .missingField "duration_seconds", .missingField "is_reversible"]
    warnings := []
    message := structuralFailMessage 4 }

end Inputs

/-! ### Numpy primitives used by the audio layer

Reals model Python floats exactly; non-finite values are outside the
model.  Division follows the mathematical convention of the source
except that the source can produce NaN/inf where Lean yields `x / 0 = 0`;
no theorem below depends on a value produced by a division by zero. -/

open scoped Classical

/-- `np.mean` (the source never takes the mean of an empty array on the
paths proved below; Python would yield NaN there, Lean `0/0 = 0`). -/
noncomputable def npMean (l : List ℝ) : ℝ := l.sum / l.length

/-- `np.diff`: first differences. -/
def npDiff (l : List ℝ) : List ℝ := List.zipWith (fun a b => b - a) l l.tail

/-- `np.sign`. -/
noncomputable def npSign (x : ℝ) : ℝ := if 0 < x then 1 else if x < 0 then -1 else 0

/-- `np.cumsum`. -/
noncomputable def npCumsum (l : List ℝ) : List ℝ :=
  (List.range l.length).map fun i => (l.take (i + 1)).sum

/-- Number of output points of `np.fft.rfft` on `n` input points. -/
def rfftLength (n : ℕ) : ℕ := n / 2 + 1

/-- One coefficient of the discrete Fourier transform of a real signal. -/
noncomputable def dftCoeff (x : List ℝ) (j : ℕ) : ℂ :=
  ∑ k ∈ Finset.range x.length,
    (x.getD k 0 : ℂ) * Complex.exp (-(2 * Real.pi * Complex.I * j * k) / x.length)

/-- `np.fft.rfft`: the first `n/2 + 1` DFT coefficients; raises
`ValueError` (modelled `none`) on an empty input. -/
noncomputable def rfft (x : List ℝ) : Option (List ℂ) :=
  if x.length = 0 then none
  else some ((List.range (rfftLength x.length)).map (dftCoeff x))

/-- The Hermitian extension used by `np.fft.irfft`: spectrum entry `j`
of the length-`n` inverse, reading the stored half-spectrum. -/
noncomputable def hermComponent (X : List ℂ) (n j : ℕ) : ℂ :=
  if j ≤ n / 2 then X.getD j 0 else (starRingEnd ℂ) (X.getD (n - j) 0)

/-- `np.fft.irfft(X, n)`: real inverse DFT of the Hermitian extension
(the callers below always pass `n = ` original signal length ≥ 1). -/
noncomputable def irfft (X : List ℂ) (n : ℕ) : List ℝ :=
  (List.range n).map fun (k : ℕ) =>
    (1 / n : ℝ) *
      (∑ j ∈ Finset.range n,
        hermComponent X n j * Complex.exp (2 * Real.pi * Complex.I * j * (k : ℂ) / n)).re

/-- `np.fft.rfftfreq(n, 1/sample_rate)`: bin `j` maps to `j·sr/n` Hz. -/
noncomputable def rfftfreq (n : ℕ) (sampleRate : ℝ) : List ℝ :=
  (List.range (rfftLength n)).map fun (j : ℕ) => (j : ℝ) * sampleRate / n

/-- `np.percentile(a, q)` with numpy's default linear interpolation
(callers only use its value on nonempty inputs). -/
noncomputable def npPercentile (l : List ℝ) (q : ℝ) : ℝ :=
  let s := l.mergeSort fun a b => decide (a ≤ b)
  let n := s.length
  let pos := q / 100 * (n - 1)
  let i := ⌊pos⌋
  let lower := s.getD i.toNat 0
  let upper := s.getD (min (i.toNat + 1) (n - 1)) 0
  lower + (pos - i) * (upper - lower)

/-- Full discrete convolution, `np.convolve(a, v, 'full')`. -/
noncomputable def npConvolveFull (a v : List ℝ) : List ℝ :=
  (List.range (a.length + v.length - 1)).map fun k =>
    ∑ i ∈ Finset.range a.length,
      a.getD i 0 * (if i ≤ k then v.getD (k - i) 0 else 0)

/-- `np.convolve(a, v, 'same')`: the centered `max(M, N)` values of the
full convolution; raises `ValueError` (modelled `none`) if either input
is empty. -/
noncomputable def npConvolveSame (a v : List ℝ) : Option (List ℝ) :=
  if a.length = 0 ∨ v.length = 0 then none
  else
    let full := npConvolveFull a v
    let s := max a.length v.length
    let start := (a.length + v.length - 1 - s) / 2
    some ((full.drop start).take s)

/-- Elementwise product of two numpy 1-d arrays under broadcasting:
equal lengths multiply pointwise, a length-1 operand broadcasts, and any
other shape pair raises `ValueError` (modelled `none`). -/
noncomputable def npMulBroadcast (a b : List ℝ) : Option (List ℝ) :=
  if a.length = b.length then some (List.zipWith (· * ·) a b)
  else if a.length = 1 then some (b.map fun y => a.getD 0 0 * y)
  else if b.length = 1 then some (a.map fun x => x * b.getD 0 0)
  else none

namespace AudioProcessor

/-! ### `src/audio/processor.py` -/

/-- The `AudioProcessingStrategy` dataclass (defaults as in source;
`frequency_emphasis = None` and `= {}` are both falsy in Python and are
modelled as the empty list). -/
structure AudioProcessingStrategy where
  noise_suppression_strength : ℝ
  speech_enhancement_level : ℝ
  dynamic_range_compression_ratio : ℝ
  frequency_emphasis : List (String × ℝ) := []
  high_frequency_boost : ℝ := 0.0
  low_frequency_reduction : ℝ := 0.0
  adaptive_gain : ℝ := 1.0
  noise_gate_threshold : ℝ := -40
  explanation : String := ""

/-- `AudioProcessor._apply_noise_suppression`. -/
noncomputable def apply_noise_suppression (signal : List ℝ) (strength : ℝ) :
    Option (List ℝ) := do
  let fft ← rfft signal
  let magnitude := fft.map Complex.abs
  let phase := fft.map Complex.arg
  let frameEnergy := magnitude.map (· ^ 2)
  let noiseFloor := npPercentile frameEnergy 10
  let suppressed := frameEnergy.map fun e => e - strength * noiseFloor
  let suppressed2 := List.zipWith max suppressed (frameEnergy.map fun e => 0.1 * e)
  let suppressedMag := suppressed2.map Real.sqrt
  let fftSuppressed :=
    List.zipWith (fun (m : ℝ) (p : ℝ) => (m : ℂ) * Complex.exp (Complex.I * p))
      suppressedMag phase
  pure (irfft fftSuppressed signal.length)

/-- `AudioProcessor._apply_noise_gate` (the source also computes an rms
of the signal it never uses). -/
noncomputable def apply_noise_gate (signal : List ℝ) (thresholdDb : ℝ) :
    Option (List ℝ) := do
  let thresholdLinear := (10 : ℝ) ^ (thresholdDb / 20)
  let gate := signal.map fun x => if thresholdLinear * 0.1 < |x| then (1 : ℝ) else 0
  let gate2 ← npConvolveSame gate (List.replicate 100 ((1 : ℝ) / 100))
  npMulBroadcast signal gate2

/-- `AudioProcessor._apply_speech_enhancement`. -/
noncomputable def apply_speech_enhancement (sr : ℝ) (signal : List ℝ) (level : ℝ) :
    Option (List ℝ) := do
  let fft ← rfft signal
  let freqs := rfftfreq signal.length sr
  let emphasis := freqs.map fun f => if 300 ≤ f ∧ f ≤ 3000 then 1 + level * 0.5 else 1
  let fftEnhanced := List.zipWith (fun (z : ℂ) (e : ℝ) => z * (e : ℂ)) fft emphasis
  pure (irfft fftEnhanced signal.length)

/-- `AudioProcessor._apply_compression`. -/
noncomputable def apply_compression (signal : List ℝ) (ratio : ℝ)
    (threshold : ℝ := 0.5) : Option (List ℝ) := do
  let gain := signal.map fun x =>
    if threshold < |x| then threshold / (|x| / (1 / ratio - 1 + |x|)) else 1
  let gain2 ← npConvolveSame gain (List.replicate 50 ((1 : ℝ) / 50))
  npMulBroadcast signal gain2

/-- Membership of a frequency in one of the named emphasis bands; an
unrecognized band name matches nothing (the source `continue`s). -/
noncomputable def bandMask (band : String) (f : ℝ) : Bool :=
  if band = "low" then decide (f < 500)
  else if band = "mid_low" then decide (500 ≤ f ∧ f < 2000)
  else if band = "mid_high" then decide (2000 ≤ f ∧ f < 8000)
  else if band = "high" then decide (8000 ≤ f)
  else false

/-- `AudioProcessor._apply_frequency_emphasis`. -/
noncomputable def apply_frequency_emphasis (sr : ℝ) (signal : List ℝ)
    (emphasisDict : List (String × ℝ)) : Option (List ℝ) := do
  let fft ← rfft signal
  let freqs := rfftfreq signal.length sr
  let emphasis := emphasisDict.foldl
    (fun (acc : List ℝ) (p : String × ℝ) =>
      let gainLinear := (10 : ℝ) ^ (p.2 / 20)
      List.zipWith (fun e f => if bandMask p.1 f then e * gainLinear else e) acc freqs)
    (freqs.map fun _ => (1 : ℝ))
  let fftEmphasized := List.zipWith (fun (z : ℂ) (e : ℝ) => z * (e : ℂ)) fft emphasis
  pure (irfft fftEmphasized signal.length)

/-- `AudioProcessor._apply_frequency_adjustments`. -/
noncomputable def apply_frequency_adjustments (sr : ℝ) (signal : List ℝ)
    (highFreqBoostDb lowFreqReductionDb : ℝ) : Option (List ℝ) := do
  let fft ← rfft signal
  let freqs := rfftfreq signal.length sr
  let fft2 :=
    if highFreqBoostDb ≠ 0 then
      List.zipWith
        (fun (z : ℂ) (f : ℝ) =>
          if 4000 < f then z * ((((10 : ℝ) ^ (highFreqBoostDb / 20)) : ℝ) : ℂ) else z)
        fft freqs
    else fft
  let fft3 :=
    if lowFreqReductionDb ≠ 0 then
      List.zipWith
        (fun (z : ℂ) (f : ℝ) =>
          if f < 200 then z * ((((10 : ℝ) ^ (lowFreqReductionDb / 20)) : ℝ) : ℂ) else z)
        fft2 freqs
    else fft2
  pure (irfft fft3 signal.length)

/-- `AudioProcessor.apply_strategy`: the ordered transform chain ending
in the hard clip to [−1, 1]. -/
noncomputable def apply_strategy (sr : ℝ) (signal : List ℝ)
    (strategy : AudioProcessingStrategy) : Option (List ℝ) := do
  let processed := signal
  let step1 : Option (List ℝ) :=
    if 0 < strategy.noise_suppression_strength then
      apply_noise_suppression processed strategy.noise_suppression_strength
    else pure processed
  let p1 ← step1
  let p2 ← apply_noise_gate p1 strategy.noise_gate_threshold
  let step3 : Option (List ℝ) :=
    if 0 < strategy.speech_enhancement_level then
      apply_speech_enhancement sr p2 strategy.speech_enhancement_level
    else pure p2
  let p3 ← step3
  let step4 : Option (List ℝ) :=
    if 1 < strategy.dynamic_range_compression_ratio then
      apply_compression p3 strategy.dynamic_range_compression_ratio
    else pure p3
  let p4 ← step4
  let step5 : Option (List ℝ) :=
    if strategy.frequency_emphasis ≠ [] then
      apply_frequency_emphasis sr p4 strategy.frequency_emphasis
    else pure p4
  let p5 ← step5
  let p6 ← apply_frequency_adjustments sr p5
    strategy.high_frequency_boost strategy.low_frequency_reduction
  let p7 := p6.map fun x => x * strategy.adaptive_gain
  pure (p7.map fun x => max (-1) (min 1 x))

end AudioProcessor

namespace AudioFeatureExtractor

/-! ### `src/audio/extractor.py` and `src/audio/features.py` -/

/-- The `AudioFeatureSet` dataclass; fields the extractor never
populates stay at their `None`/default values. -/
structure AudioFeatureSet where
  mfcc : Option (List ℝ) := none
  mel_spectrogram : Option (List ℝ) := none
  spectral_centroid : Option ℝ := none
  spectral_rolloff : Option ℝ := none
  zero_crossing_rate : Option ℝ := none
  onset_strength : Option ℝ := none
  tempo : Option ℝ := none
  speech_probability : Option ℝ := none
  noise_type : Option String := none
  noise_level_db : Option ℝ := none
  is_speech_present : Bool := false
  is_silence : Bool := false
  sound_event_class : Option String := none
  timestamp : Option ℝ := none
  duration_ms : Option ℝ := none
  sample_rate : ℝ := 16000

/-- `AudioFeatureExtractor._compute_spectral_centroid`. -/
noncomputable def compute_spectral_centroid (sr : ℝ) (signal : List ℝ) :
    Option ℝ := do
  let fft ← rfft signal
  let magnitude := fft.map Complex.abs
  let freqs := rfftfreq signal.length sr
  let total := magnitude.sum
  pure (if 0 < total then (List.zipWith (· * ·) freqs magnitude).sum / total else 0)

/-- `AudioFeatureExtractor._compute_spectral_rolloff`. -/
noncomputable def compute_spectral_rolloff (sr : ℝ) (signal : List ℝ)
    (threshold : ℝ := 0.85) : Option ℝ := do
  let fft ← rfft signal
  let magnitude := fft.map Complex.abs
  let freqs := rfftfreq signal.length sr
  let cms := npCumsum magnitude
  let totalEnergy := (cms.getLast?).getD 1
  let idx := (List.range cms.length).filter fun i =>
    decide (threshold * totalEnergy ≤ cms.getD i 0)
  pure (match idx with | [] => 0 | i :: _ => freqs.getD i 0)

/-- `AudioFeatureExtractor._compute_zcr`. -/
noncomputable def compute_zcr (signal : List ℝ) : ℝ :=
  npMean ((npDiff (signal.map npSign)).map fun d => |d|) / 2

/-- `AudioFeatureExtractor._compute_onset_strength`. -/
noncomputable def compute_onset_strength (signal : List ℝ) : ℝ :=
  Real.sqrt (npMean ((npDiff signal).map (· ^ 2)))

/-- `AudioFeatureExtractor._estimate_noise_level`:
`20·log10(max(rms, 1e-10))`. -/
noncomputable def estimate_noise_level (signal : List ℝ) : ℝ :=
  let r := Real.sqrt (npMean (signal.map (· ^ 2)))
  let r2 := max r (1e-10)
  20 * Real.logb 10 r2

/-- `AudioFeatureExtractor._estimate_speech_probability`. -/
noncomputable def estimate_speech_probability (sr : ℝ) (signal : List ℝ) :
    Option ℝ := do
  let centroid ← compute_spectral_centroid sr signal
  let zcr := compute_zcr signal
  let centroidScore := max 0 (min 1 (1 - |centroid - 2000| / 4000))
  let zcrScore := max 0 (min 1 (1 - |zcr - 0.5| / 1.0))
  pure ((centroidScore + zcrScore) / 2)

/-- `AudioFeatureExtractor._classify_noise` (the source also computes a
zero-crossing rate it never uses). -/
noncomputable def classify_noise (sr : ℝ) (signal : List ℝ) : Option String := do
  let c ← compute_spectral_centroid sr signal
  pure (if c < 500 then "low_frequency"
    else if c < 2000 then "mid_frequency"
    else if c < 8000 then "high_frequency"
    else "very_high_frequency")

/-- `AudioFeatureExtractor._classify_sound_event`. -/
noncomputable def classify_sound_event (sr : ℝ) (signal : List ℝ) :
    Option String := do
  let noiseLevel := estimate_noise_level signal
  let speechProb ← estimate_speech_probability sr signal
  pure (if noiseLevel < 30 then "silence"
    else if 0.7 < speechProb then "speech"
    else if 60 < noiseLevel then "loud_noise"
    else "background_sound")

/-- `AudioFeatureExtractor.extract_features`. -/
noncomputable def extract_features (sr : ℝ) (signal : List ℝ)
    (durationMs : Option ℝ) : Option AudioFeatureSet := do
  let dur :=
    match durationMs with
    | some d => d
    | none => signal.length / sr * 1000
  let centroid ← compute_spectral_centroid sr signal
  let rolloff ← compute_spectral_rolloff sr signal
  let zcr := compute_zcr signal
  let onset := compute_onset_strength signal
  let noiseLevel := estimate_noise_level signal
  let speechProb ← estimate_speech_probability sr signal
  let noiseType ← classify_noise sr signal
  let soundEvent ← classify_sound_event sr signal
  pure { spectral_centroid := some centroid
         spectral_rolloff := some rolloff
         zero_crossing_rate := some zcr
         onset_strength := some onset
         noise_level_db := some noiseLevel
         speech_probability := some speechProb
         is_silence := decide (noiseLevel < 30)
         is_speech_present := decide (0.5 < speechProb)
         noise_type := some noiseType
         sound_event_class := some soundEvent
         duration_ms := some dur
         sample_rate := sr }

end AudioFeatureExtractor

/-- A processing strategy that enables no optional stage, so the only
transforms applied are the unconditional noise gate, the unconditional
frequency adjustments, the adaptive gain and the final clip. -/
def gateOnlyStrategy : AudioProcessor.AudioProcessingStrategy :=
  { noise_suppression_strength := 0
    speech_enhancement_level := 0
    dynamic_range_compression_ratio := 1
    frequency_emphasis := []
    high_frequency_boost := 0
    low_frequency_reduction := 0
    adaptive_gain := 1
    noise_gate_threshold := -40
    explanation := "" }

/-! ## Helper lemmas on dictionaries and clamping -/

theorem dictGet_dictSet_same (s : StrategyDict) (k : String) (v d : PyVal) :
    dictGet (dictSet s k v) k d = v := by
  induction s with
  | nil => simp [dictSet, dictGet]
  | cons p rest ih =>
    obtain ⟨k0, v0⟩ := p
    by_cases h : k0 = k
    · simp [dictSet, dictGet, h]
    · simp [dictSet, dictGet, h, ih]

theorem dictGet_dictSet_other (s : StrategyDict) (k k' : String) (v d : PyVal)
    (hne : k ≠ k') : dictGet (dictSet s k v) k' d = dictGet s k' d := by
  induction s with
  | nil => simp [dictSet, dictGet, hne]
  | cons p rest ih =>
    obtain ⟨k0, v0⟩ := p
    by_cases h : k0 = k
    · subst h
      simp [dictSet, dictGet, hne]
    · by_cases h' : k0 = k'
      · simp [dictSet, dictGet, h, h', Ne.symm hne]
      · simp [dictSet, dictGet, h, h', ih]

theorem dictHasKey_dictSet_same (s : StrategyDict) (k : String) (v : PyVal) :
    dictHasKey (dictSet s k v) k = true := by
  induction s with
  | nil => simp [dictSet, dictHasKey]
  | cons p rest ih =>
    obtain ⟨k0, v0⟩ := p
    by_cases h : k0 = k
    · simp [dictSet, dictHasKey, h]
    · simp [dictSet, dictHasKey, h, ih]

theorem dictHasKey_dictSet_mono (s : StrategyDict) (k k' : String) (v : PyVal)
    (h : dictHasKey s k' = true) : dictHasKey (dictSet s k v) k' = true := by
  induction s with
  | nil => simp [dictHasKey] at h
  | cons p rest ih =>
    obtain ⟨k0, v0⟩ := p
    by_cases hk : k0 = k
    · rw [dictSet, if_pos hk]
      rw [dictHasKey] at h ⊢
      exact h
    · rw [dictSet, if_neg hk]
      rw [dictHasKey] at h ⊢
      by_cases hk' : k0 = k'
      · rw [if_pos hk']
      · rw [if_neg hk'] at h ⊢
        exact ih h

theorem dictSet_eq_self (s : StrategyDict) (k : String) (v d : PyVal)
    (hk : dictHasKey s k = true) (hv : dictGet s k d = v) : dictSet s k v = s := by
  induction s with
  | nil => simp [dictHasKey] at hk
  | cons p rest ih =>
    obtain ⟨k0, v0⟩ := p
    by_cases h : k0 = k
    · simp [dictGet, h] at hv
      simp [dictSet, h, hv]
    · simp [dictHasKey, h] at hk
      simp [dictGet, h] at hv
      simp [dictSet, h, ih hk hv]

namespace SafetyValidator

theorem clampQ_le (lo hi x : ℚ) (h : lo ≤ hi) :
    lo ≤ clampQ lo hi x ∧ clampQ lo hi x ≤ hi :=
  ⟨le_max_left _ _, max_le h (min_le_left _ _)⟩

theorem clampQ_id (lo hi x : ℚ) (h1 : lo ≤ x) (h2 : x ≤ hi) :
    clampQ lo hi x = x := by
  unfold clampQ
  rw [min_eq_right h2, max_eq_right h1]

theorem boundField_eq_some (lo hi : ℚ) (k : String) (dflt : ℚ)
    (s t : StrategyDict) (h : boundField lo hi k dflt s = some t) :
    ∃ v, pyFloat (dictGet s k (.float dflt)) = some v ∧
      t = dictSet s k (.float (clampQ lo hi v)) := by
  unfold boundField at h
  simp only [Option.bind_eq_bind, Option.bind_eq_some, Option.pure_def,
    Option.some_inj] at h
  obtain ⟨v, hv, ht⟩ := h
  exact ⟨v, hv, ht.symm⟩

theorem boundField_fixed (lo hi : ℚ) (k : String) (dflt : ℚ)
    (s : StrategyDict) (v : ℚ) (hk : dictHasKey s k = true)
    (hv : dictGet s k (.float dflt) = .float v) (h1 : lo ≤ v) (h2 : v ≤ hi) :
    boundField lo hi k dflt s = some s := by
  unfold boundField
  rw [hv]
  simp [pyFloat, clampQ_id lo hi v h1 h2, dictSet_eq_self s k (.float v) _ hk hv]

end SafetyValidator

open SafetyValidator DecisionEngine Inputs

/- Batteries seals the rational-number operations; reopen them for this
file so that concrete model evaluations reduce by `decide`/`rfl`. -/
attribute [local semireducible] Rat.add Rat.mul Rat.sub Rat.inv Rat.ofScientific

/-! ## Claim theorems: decision/validation layer -/

/-- Claim C7: the effectiveness signal equals the clamped formula
`clamp(0.5 + 0.5·asr + [0.3·((sat−50)/50)] − [0.3 if override], −1, 1)`;
the two concrete outcomes from the specification land above and below
0.5 respectively; and the signal always lies in [−1, 1]. -/
theorem compute_effectiveness_spec :
    (∀ (o : FeedbackOutcome) (sat : Option ℚ),
      compute_effectiveness o sat =
        effectivenessSpecFormula o.asr_confidence_change sat o.user_override) ∧
    (0.5 < compute_effectiveness ⟨0.15, false⟩ (some 85)) ∧
    (compute_effectiveness ⟨-0.10, true⟩ (some 25) < 0.5) ∧
    (∀ (o : FeedbackOutcome) (sat : Option ℚ),
      -1 ≤ compute_effectiveness o sat ∧ compute_effectiveness o sat ≤ 1) := by
  refine ⟨?_, by decide, by decide, ?_⟩
  · intro o sat
    obtain ⟨asr, ov⟩ := o
    cases sat with
    | none =>
      cases ov <;>
        · simp only [compute_effectiveness, effectivenessSpecFormula]
          norm_num
          ring_nf
    | some s =>
      cases ov <;>
        · simp only [compute_effectiveness, effectivenessSpecFormula]
          norm_num
          ring_nf
  · intro o sat
    unfold compute_effectiveness
    constructor
    · exact le_trans (by norm_num) (le_max_left _ _)
    · exact le_trans (max_le (by norm_num) (min_le_left _ _)) (by norm_num)

/-- Claim C9: `_record_decision` keeps the history bounded: whenever an
append pushes it past 10,000 entries it is cut back to exactly the most
recent 5,000 in their original order, and the retained history never
exceeds 10,000 entries. -/
theorem record_decision_trims_history {α : Type} (h : List α) (d : α) :
    (10000 < (h ++ [d]).length →
      record_decision h d = (h ++ [d]).drop ((h ++ [d]).length - 5000) ∧
      (record_decision h d).length = 5000) ∧
    (record_decision h d).length ≤ 10000 := by
  constructor
  · intro hlen
    unfold record_decision
    rw [if_pos hlen]
    refine ⟨rfl, ?_⟩
    rw [List.length_drop]
    omega
  · simp only [record_decision]
    split
    · rw [List.length_drop]
      omega
    · rename_i hc
      rw [List.length_append] at hc
      simp only [List.length_append]
      omega

/-- Witness for C9 at a concrete overflowing history. -/
theorem record_decision_trims_history_witness :
    10000 < (List.replicate 10000 (0 : ℕ) ++ [0]).length ∧
    record_decision (List.replicate 10000 (0 : ℕ)) 0 =
      (List.replicate 10000 (0 : ℕ) ++ [0]).drop
        ((List.replicate 10000 (0 : ℕ) ++ [0]).length - 5000) ∧
    (record_decision (List.replicate 10000 (0 : ℕ)) 0).length = 5000 := by
  have hlen : 10000 < (List.replicate 10000 (0 : ℕ) ++ [0]).length := by
    rw [List.length_append, List.length_replicate, List.length_singleton]
    omega
  obtain ⟨h1, h2⟩ :=
    (record_decision_trims_history (List.replicate 10000 (0 : ℕ)) 0).1 hlen
  exact ⟨hlen, h1, h2⟩

theorem termViolations_mem (s : StrategyDict) (t : String)
    (ht : t ∈ prohibitedTerms)
    (hc : strContains (strLower (pyReprDict s)) t = true) :
    Violation.prohibitedTerm t ∈ termViolations s := by
  unfold termViolations
  exact List.mem_filterMap.2 ⟨t, ht, by simp [hc]⟩

/-- Claim C10: a prohibited term in the rendered strategy makes
`validate_strategy` return early: `is_safe = false`, the violation list
is exactly the prohibited-term violations followed by the missing-field
violations (so it contains a prohibited-term violation and no bound
violation, whatever the numeric fields hold), and the warning list is
empty. -/
theorem prohibited_term_short_circuits (s : StrategyDict)
    (h : ∃ t ∈ prohibitedTerms, strContains (strLower (pyReprDict s)) t = true) :
    validate_strategy s =
      some ⟨false, termViolations s ++ missingFieldViolations s, [],
        structuralFailMessage (termViolations s ++ missingFieldViolations s).length⟩ ∧
    termViolations s ≠ [] ∧
    (∀ v ∈ termViolations s ++ missingFieldViolations s,
      (∃ t, v = Violation.prohibitedTerm t) ∨ (∃ f, v = Violation.missingField f)) := by
  obtain ⟨t, ht, hc⟩ := h
  have hmem := termViolations_mem s t ht hc
  have hne : termViolations s ≠ [] := List.ne_nil_of_mem hmem
  have hv0 : termViolations s ++ missingFieldViolations s ≠ [] := by
    intro hcontra
    exact hne (List.append_eq_nil.mp hcontra).1
  refine ⟨?_, hne, ?_⟩
  · unfold validate_strategy
    rw [if_pos hv0]
  · intro v hv
    rcases List.mem_append.1 hv with hv | hv
    · unfold termViolations at hv
      obtain ⟨t', _, hsome⟩ := List.mem_filterMap.1 hv
      split at hsome
      · exact Or.inl ⟨t', (Option.some_inj.1 hsome).symm⟩
      · exact absurd hsome (by simp)
    · unfold missingFieldViolations at hv
      obtain ⟨f, _, hsome⟩ := List.mem_filterMap.1 hv
      split at hsome
      · exact absurd hsome (by simp)
      · exact Or.inr ⟨f, (Option.some_inj.1 hsome).symm⟩

/-- Witness for C10: a strategy whose name contains "fft" and whose
noise suppression is also out of range takes the early return. -/
theorem prohibited_term_short_circuits_witness :
    (∃ t ∈ prohibitedTerms,
      strContains (strLower (pyReprDict strat10)) t = true) ∧
    validate_strategy strat10 =
      some ⟨false, termViolations strat10 ++ missingFieldViolations strat10, [],
        structuralFailMessage
          (termViolations strat10 ++ missingFieldViolations strat10).length⟩ := by
  have hex : ∃ t ∈ prohibitedTerms,
      strContains (strLower (pyReprDict strat10)) t = true :=
    ⟨"fft", by decide, by set_option maxRecDepth 10000 in decide⟩
  exact ⟨hex, (prohibited_term_short_circuits strat10 hex).1⟩

/-- Claim C1 evaluation: whenever the candidate fails validation, the
ORAL cycle emits the conservative fallback, which does carry
`is_reversible = true` and `duration_seconds = 10 ≥ 10` — but its
`primary_action` does NOT pass re-validation: it is missing the required
fields `rationale`, `confidence`, `duration_seconds` and
`is_reversible`, so the re-validation returns `is_safe = false`,
contradicting the claim (and the fallback's own stated purpose). -/
theorem oral_fallback_fails_revalidation (ts : String) (cand : Decision)
    (chk : SafetyCheck)
    (hval : validate_strategy cand.primary_action = some chk)
    (hfail : chk.is_safe = false) :
    oralActPhase ts cand = some (fallback_conservative_decision ts, fallbackCheck) ∧
    (fallback_conservative_decision ts).is_reversible = true ∧
    (fallback_conservative_decision ts).duration_seconds = 10 ∧
    fallbackCheck.is_safe = false ∧
    Violation.missingField "rationale" ∈ fallbackCheck.violations ∧
    Violation.missingField "confidence" ∈ fallbackCheck.violations ∧
    Violation.missingField "duration_seconds" ∈ fallbackCheck.violations ∧
    Violation.missingField "is_reversible" ∈ fallbackCheck.violations := by
  have hfb : validate_strategy (fallback_conservative_decision ts).primary_action =
      some fallbackCheck := by
    show validate_strategy fallbackPrimaryAction = some fallbackCheck
    set_option maxRecDepth 40000 in decide
  refine ⟨?_, rfl, rfl, by decide, by decide, by decide, by decide, by decide⟩
  unfold oralActPhase
  rw [hval]
  simp [hfail, hfb]

/-- Witness for C1 at a concrete failing candidate (empty strategy). -/
theorem oral_fallback_fails_revalidation_witness :
    validate_strategy emptyCandidate.primary_action = some emptyCheck ∧
    emptyCheck.is_safe = false ∧
    oralActPhase "t0" emptyCandidate =
      some (fallback_conservative_decision "t0", fallbackCheck) ∧
    fallbackCheck.is_safe = false := by
  have h1 : validate_strategy emptyCandidate.primary_action = some emptyCheck := by
    decide
  have h2 : emptyCheck.is_safe = false := by decide
  obtain ⟨h3, _, _, h4, _⟩ :=
    oral_fallback_fails_revalidation "t0" emptyCandidate emptyCheck h1 h2
  exact ⟨h1, h2, h3, h4⟩

/-- Counterexample to claim C3: on a candidate with an out-of-range
numeric field, the (effective, second) `decide_strategy` returns the
candidate clamped by `apply_safety_bounds` — not the conservative
fallback strategy. -/
theorem decide_strategy_returns_clamped_candidate_cex :
    decide_strategy true cand3 = some cand3Clamped ∧
    apply_safety_bounds cand3 = some cand3Clamped ∧
    cand3Clamped ≠ fallbackPrimaryAction ∧
    (validate_strategy cand3).map SafetyCheck.is_safe = some false := by
  set_option maxRecDepth 100000 in decide

/-- Claim C3 amended: in the full decision path, a candidate that fails
validation is clamped via `apply_safety_bounds`, not replaced by the
conservative fallback; the fallback substitution lives only in the
shadowed first `decide_strategy` definition (the ORAL cycle). -/
theorem decide_strategy_clamps_on_failed_validation (c : StrategyDict)
    (chk : SafetyCheck) (hval : validate_strategy c = some chk)
    (hfail : chk.is_safe = false) :
    decide_strategy true c = apply_safety_bounds c := by
  unfold decide_strategy
  rw [if_pos rfl, hval]
  simp [hfail]

/-- Witness for the amended C3 at the concrete candidate `cand3`. -/
theorem decide_strategy_clamps_on_failed_validation_witness :
    (validate_strategy cand3).map SafetyCheck.is_safe = some false ∧
    decide_strategy true cand3 = apply_safety_bounds cand3 := by
  have hmap : (validate_strategy cand3).map SafetyCheck.is_safe = some false := by
    set_option maxRecDepth 100000 in decide
  refine ⟨hmap, ?_⟩
  cases h : validate_strategy cand3 with
  | none => rw [h] at hmap; exact absurd hmap (by simp)
  | some chk =>
    rw [h] at hmap
    simp only [Option.map_some', Option.some_inj] at hmap
    exact decide_strategy_clamps_on_failed_validation cand3 chk h hmap

theorem safetyCheck_mem_imp (violations : List Violation)
    (warnings : List Warning) (msg : String) (v : Violation)
    (hmem : v ∈ violations) :
    (SafetyCheck.mk (decide (violations = [])) violations warnings msg).is_safe =
      false ∧
    v ∈ (SafetyCheck.mk (decide (violations = []))
      violations warnings msg).violations :=
  ⟨decide_eq_false (List.ne_nil_of_mem hmem), hmem⟩

theorem validate_bound_checks (s : StrategyDict) (chk : SafetyCheck)
    (hterm : termViolations s = []) (hmiss : missingFieldViolations s = [])
    (hval : validate_strategy s = some chk) :
    (∀ v, pyFloat (dictGet s "noise_suppression_strength" (.float 0.5)) = some v →
      (v < minNoiseSuppression ∨ maxNoiseSuppression < v) →
      chk.is_safe = false ∧
        Violation.noiseSuppressionOutOfBounds v ∈ chk.violations) ∧
    (∀ v, pyFloat (dictGet s "speech_enhancement_strength" (.float 0.0)) = some v →
      (v < minSpeechEnhancement ∨ maxSpeechEnhancement < v) →
      chk.is_safe = false ∧
        Violation.speechEnhancementOutOfBounds v ∈ chk.violations) ∧
    (∀ v, pyFloat (dictGet s "compression_ratio" (.float 1.0)) = some v →
      (v < minCompressionRatioQ ∨ maxCompressionRatioQ < v) →
      chk.is_safe = false ∧
        Violation.compressionRatioOutOfBounds v ∈ chk.violations) ∧
    (∀ v, pyFloat (dictGet s "high_freq_boost_db" (.float 0.0)) = some v →
      (v < minHighFreqBoost ∨ maxHighFreqBoost < v) →
      chk.is_safe = false ∧
        Violation.highFreqBoostOutOfBounds v ∈ chk.violations) ∧
    (∀ v, pyFloat (dictGet s "low_freq_reduction_db" (.float 0.0)) = some v →
      (v < minLowFreqReduction ∨ maxLowFreqReduction < v) →
      chk.is_safe = false ∧
        Violation.lowFreqReductionOutOfBounds v ∈ chk.violations) ∧
    (∀ v, pyFloat (dictGet s "confidence" (.float 0.5)) = some v →
      (v < 0.0 ∨ 1.0 < v) →
      chk.is_safe = false ∧
        Violation.confidenceOutOfBounds v ∈ chk.violations) ∧
    (∀ dv, pyToInt (dictGet s "duration_seconds" (.int 30)) = some dv →
      dv < minDecisionDuration →
      chk.is_safe = false ∧ Violation.durationTooShort dv ∈ chk.violations) ∧
    (∀ dv, pyToInt (dictGet s "duration_seconds" (.int 30)) = some dv →
      maxDecisionDuration < dv →
      chk.is_safe = false ∧ Violation.durationTooLong dv ∈ chk.violations) := by
  unfold validate_strategy at hval
  rw [hterm, hmiss] at hval
  rw [if_neg (by simp)] at hval
  simp only [Option.bind_eq_bind, Option.bind_eq_some, Option.pure_def,
    Option.some_inj] at hval
  obtain ⟨ns, hns, se, hsev, cr, hcr, hb, hhfb, lf, hlfr, cf, hcfv, du, hduv, hfin⟩ :=
    hval
  subst hfin
  refine ⟨?_, ?_, ?_, ?_, ?_, ?_, ?_, ?_⟩
  · intro v hv hrange
    rw [hns] at hv
    obtain rfl := Option.some_inj.mp hv
    refine safetyCheck_mem_imp _ _ _ _ ?_
    rw [if_pos hrange]
    simp
  · intro v hv hrange
    rw [hsev] at hv
    obtain rfl := Option.some_inj.mp hv
    refine safetyCheck_mem_imp _ _ _ _ ?_
    rw [if_pos hrange]
    simp
  · intro v hv hrange
    rw [hcr] at hv
    obtain rfl := Option.some_inj.mp hv
    refine safetyCheck_mem_imp _ _ _ _ ?_
    rw [if_pos hrange]
    simp
  · intro v hv hrange
    rw [hhfb] at hv
    obtain rfl := Option.some_inj.mp hv
    refine safetyCheck_mem_imp _ _ _ _ ?_
    rw [if_pos hrange]
    simp
  · intro v hv hrange
    rw [hlfr] at hv
    obtain rfl := Option.some_inj.mp hv
    refine safetyCheck_mem_imp _ _ _ _ ?_
    rw [if_pos hrange]
    simp
  · intro v hv hrange
    rw [hcfv] at hv
    obtain rfl := Option.some_inj.mp hv
    refine safetyCheck_mem_imp _ _ _ _ ?_
    rw [if_pos hrange]
    simp
  · intro dv hv hrange
    rw [hduv] at hv
    obtain rfl := Option.some_inj.mp hv
    refine safetyCheck_mem_imp _ _ _ _ ?_
    rw [if_pos hrange]
    simp
  · intro dv hv hrange
    rw [hduv] at hv
    obtain rfl := Option.some_inj.mp hv
    refine safetyCheck_mem_imp _ _ _ _ ?_
    rw [if_pos hrange]
    simp

theorem strat4_validates_safe :
    (validate_strategy strat4).map SafetyCheck.is_safe = some true ∧
    (validate_strategy strat4).map SafetyCheck.violations = some [] := by
  set_option maxRecDepth 100000 in decide

/-- Counterexample to claim C4: a structurally valid strategy whose
`adaptive_gain` (5.0) and `noise_gate_threshold_db` (−100.0) are far
outside the Section-3 bounds still validates as safe with an empty
violation list — `validate_strategy` never checks those two fields. -/
theorem validate_ignores_adaptive_gain_cex :
    (validate_strategy strat4).map SafetyCheck.is_safe = some true ∧
    (validate_strategy strat4).map SafetyCheck.violations = some [] ∧
    dictGet strat4 "adaptive_gain" (.float 1.0) = .float 5.0 ∧
    maxAdaptiveGain < 5.0 ∧
    dictGet strat4 "noise_gate_threshold_db" (.float (-40.0)) = .float (-100.0) ∧
    (-100.0 : ℚ) < minNoiseGateThreshold :=
  ⟨strat4_validates_safe.1, strat4_validates_safe.2, by decide, by decide,
    by decide, by decide⟩

/-- Claim C4 amended: `validate_strategy` bound-checks each of the
fields `noise_suppression_strength`, `speech_enhancement_strength`,
`compression_ratio`, `high_freq_boost_db`, `low_freq_reduction_db`,
`confidence` and `duration_seconds` against its fixed range — one
violation per out-of-range field, with two independent duration
violations for too-short and too-long — but it never checks
`adaptive_gain` or `noise_gate_threshold_db` even though the class
declares bounds for them: a strategy carrying `adaptive_gain = 5.0` and
`noise_gate_threshold_db = −100.0` with every checked field in range is
reported safe. -/
theorem validate_checks_exclude_adaptive_gain :
    (∀ (s : StrategyDict) (chk : SafetyCheck),
      termViolations s = [] → missingFieldViolations s = [] →
      validate_strategy s = some chk →
      (∀ v, pyFloat (dictGet s "noise_suppression_strength" (.float 0.5)) = some v →
        (v < minNoiseSuppression ∨ maxNoiseSuppression < v) →
        chk.is_safe = false ∧
          Violation.noiseSuppressionOutOfBounds v ∈ chk.violations) ∧
      (∀ v, pyFloat (dictGet s "speech_enhancement_strength" (.float 0.0)) = some v →
        (v < minSpeechEnhancement ∨ maxSpeechEnhancement < v) →
        chk.is_safe = false ∧
          Violation.speechEnhancementOutOfBounds v ∈ chk.violations) ∧
      (∀ v, pyFloat (dictGet s "compression_ratio" (.float 1.0)) = some v →
        (v < minCompressionRatioQ ∨ maxCompressionRatioQ < v) →
        chk.is_safe = false ∧
          Violation.compressionRatioOutOfBounds v ∈ chk.violations) ∧
      (∀ v, pyFloat (dictGet s "high_freq_boost_db" (.float 0.0)) = some v →
        (v < minHighFreqBoost ∨ maxHighFreqBoost < v) →
        chk.is_safe = false ∧
          Violation.highFreqBoostOutOfBounds v ∈ chk.violations) ∧
      (∀ v, pyFloat (dictGet s "low_freq_reduction_db" (.float 0.0)) = some v →
        (v < minLowFreqReduction ∨ maxLowFreqReduction < v) →
        chk.is_safe = false ∧
          Violation.lowFreqReductionOutOfBounds v ∈ chk.violations) ∧
      (∀ v, pyFloat (dictGet s "confidence" (.float 0.5)) = some v →
        (v < 0.0 ∨ 1.0 < v) →
        chk.is_safe = false ∧
          Violation.confidenceOutOfBounds v ∈ chk.violations) ∧
      (∀ dv, pyToInt (dictGet s "duration_seconds" (.int 30)) = some dv →
        dv < minDecisionDuration →
        chk.is_safe = false ∧ Violation.durationTooShort dv ∈ chk.violations) ∧
      (∀ dv, pyToInt (dictGet s "duration_seconds" (.int 30)) = some dv →
        maxDecisionDuration < dv →
        chk.is_safe = false ∧ Violation.durationTooLong dv ∈ chk.violations)) ∧
    ((validate_strategy strat4).map SafetyCheck.is_safe = some true ∧
      dictGet strat4 "adaptive_gain" (.float 1.0) = .float 5.0 ∧
      maxAdaptiveGain < 5.0 ∧
      dictGet strat4 "noise_gate_threshold_db" (.float (-40.0)) = .float (-100.0) ∧
      (-100.0 : ℚ) < minNoiseGateThreshold) := by
  constructor
  · exact validate_bound_checks
  · exact ⟨strat4_validates_safe.1, by decide, by decide, by decide, by decide⟩

/-- Witness for the amended C4: the general bound-check conjunct applied
to the concrete candidate `cand3`, whose noise suppression (2.0) exceeds
0.95. -/
theorem validate_checks_exclude_adaptive_gain_witness :
    termViolations cand3 = [] ∧ missingFieldViolations cand3 = [] ∧
    pyFloat (dictGet cand3 "noise_suppression_strength" (.float 0.5)) = some 2.0 ∧
    maxNoiseSuppression < 2.0 ∧
    (validate_strategy cand3).map SafetyCheck.is_safe = some false := by
  have hterm : termViolations cand3 = [] := by
    set_option maxRecDepth 100000 in decide
  have hmiss : missingFieldViolations cand3 = [] := by decide
  have hv : pyFloat (dictGet cand3 "noise_suppression_strength" (.float 0.5)) =
      some 2.0 := by decide
  have hlt : maxNoiseSuppression < 2.0 := by decide
  refine ⟨hterm, hmiss, hv, hlt, ?_⟩
  cases h : validate_strategy cand3 with
  | none =>
    exact absurd h (by set_option maxRecDepth 100000 in decide)
  | some chk =>
    have := ((validate_checks_exclude_adaptive_gain.1 cand3 chk
      hterm hmiss h).1 2.0 hv (Or.inr hlt)).1
    rw [Option.map_some', this]

/-- Counterexample to claim C6: `apply_safety_bounds` does not clamp
`adaptive_gain`, so the returned strategy can carry a numeric field far
outside its documented Section-3 bound. -/
theorem apply_bounds_unclamped_field_cex :
    apply_safety_bounds strat6 = some strat6Bounded ∧
    dictGet strat6Bounded "adaptive_gain" (.float 1.0) = .float 5.0 ∧
    maxAdaptiveGain < 5.0 := by
  decide

/-- Claim C6 amended: `apply_safety_bounds` is idempotent, and each of
the five fields it actually clamps (`noise_suppression_strength`,
`speech_enhancement_strength`, `compression_ratio`,
`high_freq_boost_db`, `low_freq_reduction_db`) lies within its
documented bound in the result; other numeric fields (such as
`adaptive_gain` and `noise_gate_threshold_db`) pass through unclamped. -/
theorem apply_bounds_idempotent_and_clamped (s t : StrategyDict)
    (h : apply_safety_bounds s = some t) :
    apply_safety_bounds t = some t ∧
    (∃ v, dictGet t "noise_suppression_strength" (.float 0.5) = .float v ∧
      minNoiseSuppression ≤ v ∧ v ≤ maxNoiseSuppression) ∧
    (∃ v, dictGet t "speech_enhancement_strength" (.float 0.0) = .float v ∧
      minSpeechEnhancement ≤ v ∧ v ≤ maxSpeechEnhancement) ∧
    (∃ v, dictGet t "compression_ratio" (.float 1.0) = .float v ∧
      minCompressionRatioQ ≤ v ∧ v ≤ maxCompressionRatioQ) ∧
    (∃ v, dictGet t "high_freq_boost_db" (.float 0.0) = .float v ∧
      minHighFreqBoost ≤ v ∧ v ≤ maxHighFreqBoost) ∧
    (∃ v, dictGet t "low_freq_reduction_db" (.float 0.0) = .float v ∧
      minLowFreqReduction ≤ v ∧ v ≤ maxLowFreqReduction) := by
  unfold apply_safety_bounds at h
  simp only [Option.bind_eq_bind, Option.bind_eq_some] at h
  obtain ⟨s1, h1, s2, h2, s3, h3, s4, h4, h5⟩ := h
  obtain ⟨v1, hv1, rfl⟩ := boundField_eq_some _ _ _ _ _ _ h1
  obtain ⟨v2, hv2, rfl⟩ := boundField_eq_some _ _ _ _ _ _ h2
  obtain ⟨v3, hv3, rfl⟩ := boundField_eq_some _ _ _ _ _ _ h3
  obtain ⟨v4, hv4, rfl⟩ := boundField_eq_some _ _ _ _ _ _ h4
  obtain ⟨v5, hv5, rfl⟩ := boundField_eq_some _ _ _ _ _ _ h5
  have e1 : dictGet
      (dictSet (dictSet (dictSet (dictSet (dictSet s
        "noise_suppression_strength" (.float (clampQ minNoiseSuppression maxNoiseSuppression v1)))
        "speech_enhancement_strength" (.float (clampQ minSpeechEnhancement maxSpeechEnhancement v2)))
        "compression_ratio" (.float (clampQ minCompressionRatioQ maxCompressionRatioQ v3)))
        "high_freq_boost_db" (.float (clampQ minHighFreqBoost maxHighFreqBoost v4)))
        "low_freq_reduction_db" (.float (clampQ minLowFreqReduction maxLowFreqReduction v5)))
      "noise_suppression_strength" (.float 0.5) =
      .float (clampQ minNoiseSuppression maxNoiseSuppression v1) := by
    rw [dictGet_dictSet_other _ _ _ _ _ (by decide),
      dictGet_dictSet_other _ _ _ _ _ (by decide),
      dictGet_dictSet_other _ _ _ _ _ (by decide),
      dictGet_dictSet_other _ _ _ _ _ (by decide),
      dictGet_dictSet_same]
  have e2 : dictGet
      (dictSet (dictSet (dictSet (dictSet (dictSet s
        "noise_suppression_strength" (.float (clampQ minNoiseSuppression maxNoiseSuppression v1)))
        "speech_enhancement_strength" (.float (clampQ minSpeechEnhancement maxSpeechEnhancement v2)))
        "compression_ratio" (.float (clampQ minCompressionRatioQ maxCompressionRatioQ v3)))
        "high_freq_boost_db" (.float (clampQ minHighFreqBoost maxHighFreqBoost v4)))
        "low_freq_reduction_db" (.float (clampQ minLowFreqReduction maxLowFreqReduction v5)))
      "speech_enhancement_strength" (.float 0.0) =
      .float (clampQ minSpeechEnhancement maxSpeechEnhancement v2) := by
    rw [dictGet_dictSet_other _ _ _ _ _ (by decide),
      dictGet_dictSet_other _ _ _ _ _ (by decide),
      dictGet_dictSet_other _ _ _ _ _ (by decide),
      dictGet_dictSet_same]
  have e3 : dictGet
      (dictSet (dictSet (dictSet (dictSet (dictSet s
        "noise_suppression_strength" (.float (clampQ minNoiseSuppression maxNoiseSuppression v1)))
        "speech_enhancement_strength" (.float (clampQ minSpeechEnhancement maxSpeechEnhancement v2)))
        "compression_ratio" (.float (clampQ minCompressionRatioQ maxCompressionRatioQ v3)))
        "high_freq_boost_db" (.float (clampQ minHighFreqBoost maxHighFreqBoost v4)))
        "low_freq_reduction_db" (.float (clampQ minLowFreqReduction maxLowFreqReduction v5)))
      "compression_ratio" (.float 1.0) =
      .float (clampQ minCompressionRatioQ maxCompressionRatioQ v3) := by
    rw [dictGet_dictSet_other _ _ _ _ _ (by decide),
      dictGet_dictSet_other _ _ _ _ _ (by decide),
      dictGet_dictSet_same]
  have e4 : dictGet
      (dictSet (dictSet (dictSet (dictSet (dictSet s
        "noise_suppression_strength" (.float (clampQ minNoiseSuppression maxNoiseSuppression v1)))
        "speech_enhancement_strength" (.float (clampQ minSpeechEnhancement maxSpeechEnhancement v2)))
        "compression_ratio" (.float (clampQ minCompressionRatioQ maxCompressionRatioQ v3)))
        "high_freq_boost_db" (.float (clampQ minHighFreqBoost maxHighFreqBoost v4)))
        "low_freq_reduction_db" (.float (clampQ minLowFreqReduction maxLowFreqReduction v5)))
      "high_freq_boost_db" (.float 0.0) =
      .float (clampQ minHighFreqBoost maxHighFreqBoost v4) := by
    rw [dictGet_dictSet_other _ _ _ _ _ (by decide),
      dictGet_dictSet_same]
  have e5 : dictGet
      (dictSet (dictSet (dictSet (dictSet (dictSet s
        "noise_suppression_strength" (.float (clampQ minNoiseSuppression maxNoiseSuppression v1)))
        "speech_enhancement_strength" (.float (clampQ minSpeechEnhancement maxSpeechEnhancement v2)))
        "compression_ratio" (.float (clampQ minCompressionRatioQ maxCompressionRatioQ v3)))
        "high_freq_boost_db" (.float (clampQ minHighFreqBoost maxHighFreqBoost v4)))
        "low_freq_reduction_db" (.float (clampQ minLowFreqReduction maxLowFreqReduction v5)))
      "low_freq_reduction_db" (.float 0.0) =
      .float (clampQ minLowFreqReduction maxLowFreqReduction v5) :=
    dictGet_dictSet_same _ _ _ _
  have hk1 : dictHasKey
      (dictSet (dictSet (dictSet (dictSet (dictSet s
        "noise_suppression_strength" (.float (clampQ minNoiseSuppression maxNoiseSuppression v1)))
        "speech_enhancement_strength" (.float (clampQ minSpeechEnhancement maxSpeechEnhancement v2)))
        "compression_ratio" (.float (clampQ minCompressionRatioQ maxCompressionRatioQ v3)))
        "high_freq_boost_db" (.float (clampQ minHighFreqBoost maxHighFreqBoost v4)))
        "low_freq_reduction_db" (.float (clampQ minLowFreqReduction maxLowFreqReduction v5)))
      "noise_suppression_strength" = true := by
    apply dictHasKey_dictSet_mono
    apply dictHasKey_dictSet_mono
    apply dictHasKey_dictSet_mono
    apply dictHasKey_dictSet_mono
    exact dictHasKey_dictSet_same _ _ _
  have hk2 : dictHasKey
      (dictSet (dictSet (dictSet (dictSet (dictSet s
        "noise_suppression_strength" (.float (clampQ minNoiseSuppression maxNoiseSuppression v1)))
        "speech_enhancement_strength" (.float (clampQ minSpeechEnhancement maxSpeechEnhancement v2)))
        "compression_ratio" (.float (clampQ minCompressionRatioQ maxCompressionRatioQ v3)))
        "high_freq_boost_db" (.float (clampQ minHighFreqBoost maxHighFreqBoost v4)))
        "low_freq_reduction_db" (.float (clampQ minLowFreqReduction maxLowFreqReduction v5)))
      "speech_enhancement_strength" = true := by
    apply dictHasKey_dictSet_mono
    apply dictHasKey_dictSet_mono
    apply dictHasKey_dictSet_mono
    exact dictHasKey_dictSet_same _ _ _
  have hk3 : dictHasKey
      (dictSet (dictSet (dictSet (dictSet (dictSet s
        "noise_suppression_strength" (.float (clampQ minNoiseSuppression maxNoiseSuppression v1)))
        "speech_enhancement_strength" (.float (clampQ minSpeechEnhancement maxSpeechEnhancement v2)))
        "compression_ratio" (.float (clampQ minCompressionRatioQ maxCompressionRatioQ v3)))
        "high_freq_boost_db" (.float (clampQ minHighFreqBoost maxHighFreqBoost v4)))
        "low_freq_reduction_db" (.float (clampQ minLowFreqReduction maxLowFreqReduction v5)))
      "compression_ratio" = true := by
    apply dictHasKey_dictSet_mono
    apply dictHasKey_dictSet_mono
    exact dictHasKey_dictSet_same _ _ _
  have hk4 : dictHasKey
      (dictSet (dictSet (dictSet (dictSet (dictSet s
        "noise_suppression_strength" (.float (clampQ minNoiseSuppression maxNoiseSuppression v1)))
        "speech_enhancement_strength" (.float (clampQ minSpeechEnhancement maxSpeechEnhancement v2)))
        "compression_ratio" (.float (clampQ minCompressionRatioQ maxCompressionRatioQ v3)))
        "high_freq_boost_db" (.float (clampQ minHighFreqBoost maxHighFreqBoost v4)))
        "low_freq_reduction_db" (.float (clampQ minLowFreqReduction maxLowFreqReduction v5)))
      "high_freq_boost_db" = true := by
    apply dictHasKey_dictSet_mono
    exact dictHasKey_dictSet_same _ _ _
  have hk5 : dictHasKey
      (dictSet (dictSet (dictSet (dictSet (dictSet s
        "noise_suppression_strength" (.float (clampQ minNoiseSuppression maxNoiseSuppression v1)))
        "speech_enhancement_strength" (.float (clampQ minSpeechEnhancement maxSpeechEnhancement v2)))
        "compression_ratio" (.float (clampQ minCompressionRatioQ maxCompressionRatioQ v3)))
        "high_freq_boost_db" (.float (clampQ minHighFreqBoost maxHighFreqBoost v4)))
        "low_freq_reduction_db" (.float (clampQ minLowFreqReduction maxLowFreqReduction v5)))
      "low_freq_reduction_db" = true :=
    dictHasKey_dictSet_same _ _ _
  have b1 := boundField_fixed minNoiseSuppression maxNoiseSuppression
    "noise_suppression_strength" 0.5 _ _ hk1 e1
    (clampQ_le _ _ v1 (by decide)).1 (clampQ_le _ _ v1 (by decide)).2
  have b2 := boundField_fixed minSpeechEnhancement maxSpeechEnhancement
    "speech_enhancement_strength" 0.0 _ _ hk2 e2
    (clampQ_le _ _ v2 (by decide)).1 (clampQ_le _ _ v2 (by decide)).2
  have b3 := boundField_fixed minCompressionRatioQ maxCompressionRatioQ
    "compression_ratio" 1.0 _ _ hk3 e3
    (clampQ_le _ _ v3 (by decide)).1 (clampQ_le _ _ v3 (by decide)).2
  have b4 := boundField_fixed minHighFreqBoost maxHighFreqBoost
    "high_freq_boost_db" 0.0 _ _ hk4 e4
    (clampQ_le _ _ v4 (by decide)).1 (clampQ_le _ _ v4 (by decide)).2
  have b5 := boundField_fixed minLowFreqReduction maxLowFreqReduction
    "low_freq_reduction_db" 0.0 _ _ hk5 e5
    (clampQ_le _ _ v5 (by decide)).1 (clampQ_le _ _ v5 (by decide)).2
  refine ⟨?_, ⟨_, e1, (clampQ_le _ _ v1 (by decide)).1, (clampQ_le _ _ v1 (by decide)).2⟩,
    ⟨_, e2, (clampQ_le _ _ v2 (by decide)).1, (clampQ_le _ _ v2 (by decide)).2⟩,
    ⟨_, e3, (clampQ_le _ _ v3 (by decide)).1, (clampQ_le _ _ v3 (by decide)).2⟩,
    ⟨_, e4, (clampQ_le _ _ v4 (by decide)).1, (clampQ_le _ _ v4 (by decide)).2⟩,
    ⟨_, e5, (clampQ_le _ _ v5 (by decide)).1, (clampQ_le _ _ v5 (by decide)).2⟩⟩
  unfold apply_safety_bounds
  simp only [Option.bind_eq_bind, b1, Option.some_bind, b2, b3, b4, b5]

/-- Witness for the amended C6 at the concrete strategy `strat6`. -/
theorem apply_bounds_idempotent_and_clamped_witness :
    apply_safety_bounds strat6 = some strat6Bounded ∧
    apply_safety_bounds strat6Bounded = some strat6Bounded := by
  have h : apply_safety_bounds strat6 = some strat6Bounded := by decide
  exact ⟨h, (apply_bounds_idempotent_and_clamped strat6 strat6Bounded h).1⟩

/-! ## Helper lemmas on the audio layer -/

theorem rfft_of_ne_nil (signal : List ℝ) (h : signal ≠ []) :
    rfft signal =
      some ((List.range (rfftLength signal.length)).map (dftCoeff signal)) := by
  unfold rfft
  rw [if_neg]
  simpa using h

theorem rfft_nil : rfft ([] : List ℝ) = none := by
  simp [rfft]

theorem irfft_length (X : List ℂ) (n : ℕ) : (irfft X n).length = n := by
  unfold irfft
  rw [List.length_map, List.length_range]

theorem npConvolveFull_length (a v : List ℝ) :
    (npConvolveFull a v).length = a.length + v.length - 1 := by
  simp [npConvolveFull]

theorem npConvolveSame_of_ne (a v : List ℝ) (ha : a ≠ []) (hv : v ≠ []) :
    ∃ c, npConvolveSame a v = some c ∧ c.length = max a.length v.length := by
  unfold npConvolveSame
  rw [if_neg]
  · refine ⟨_, rfl, ?_⟩
    rw [List.length_take, List.length_drop, npConvolveFull_length]
    have h1 : 1 ≤ a.length := List.length_pos.mpr ha
    have h2 : 1 ≤ v.length := List.length_pos.mpr hv
    omega
  · push_neg
    exact ⟨by simpa using ha, by simpa using hv⟩

theorem npMulBroadcast_of_eq_length (a b : List ℝ) (h : a.length = b.length) :
    ∃ c, npMulBroadcast a b = some c ∧ c.length = a.length := by
  unfold npMulBroadcast
  rw [if_pos h]
  refine ⟨_, rfl, ?_⟩
  rw [List.length_zipWith]
  omega

theorem npMulBroadcast_none (a b : List ℝ) (h : a.length ≠ b.length)
    (h1 : a.length ≠ 1) (h2 : b.length ≠ 1) : npMulBroadcast a b = none := by
  unfold npMulBroadcast
  rw [if_neg h, if_neg h1, if_neg h2]

namespace AudioProcessor

theorem apply_noise_suppression_length (signal : List ℝ) (strength : ℝ)
    (h : signal ≠ []) :
    ∃ o, apply_noise_suppression signal strength = some o ∧
      o.length = signal.length := by
  unfold apply_noise_suppression
  rw [rfft_of_ne_nil signal h]
  exact ⟨_, rfl, irfft_length _ _⟩

theorem apply_noise_gate_length (signal : List ℝ) (t : ℝ)
    (h : 100 ≤ signal.length) :
    ∃ o, apply_noise_gate signal t = some o ∧ o.length = signal.length := by
  have hg : (signal.map fun x =>
      if ((10 : ℝ) ^ (t / 20)) * 0.1 < |x| then (1 : ℝ) else 0) ≠ [] := by
    simp only [ne_eq, List.map_eq_nil_iff]
    intro he
    rw [he] at h
    simp at h
  obtain ⟨c, hc, hclen⟩ :=
    npConvolveSame_of_ne _ (List.replicate 100 ((1 : ℝ) / 100)) hg (by simp)
  have hcl : signal.length = c.length := by
    rw [hclen, List.length_map, List.length_replicate]
    omega
  obtain ⟨o, ho, holen⟩ := npMulBroadcast_of_eq_length signal c hcl
  refine ⟨o, ?_, holen⟩
  simp only [apply_noise_gate]
  rw [hc]
  exact ho

theorem apply_speech_enhancement_length (sr : ℝ) (signal : List ℝ) (level : ℝ)
    (h : signal ≠ []) :
    ∃ o, apply_speech_enhancement sr signal level = some o ∧
      o.length = signal.length := by
  unfold apply_speech_enhancement
  rw [rfft_of_ne_nil signal h]
  exact ⟨_, rfl, irfft_length _ _⟩

theorem apply_compression_length (signal : List ℝ) (ratio : ℝ)
    (h : 50 ≤ signal.length) :
    ∃ o, apply_compression signal ratio = some o ∧
      o.length = signal.length := by
  have hg : (signal.map fun x =>
      if (0.5 : ℝ) < |x| then 0.5 / (|x| / (1 / ratio - 1 + |x|)) else 1) ≠ [] := by
    simp only [ne_eq, List.map_eq_nil_iff]
    intro he
    rw [he] at h
    simp at h
  obtain ⟨c, hc, hclen⟩ :=
    npConvolveSame_of_ne _ (List.replicate 50 ((1 : ℝ) / 50)) hg (by simp)
  have hcl : signal.length = c.length := by
    rw [hclen, List.length_map, List.length_replicate]
    omega
  obtain ⟨o, ho, holen⟩ := npMulBroadcast_of_eq_length signal c hcl
  refine ⟨o, ?_, holen⟩
  simp only [apply_compression]
  rw [hc]
  exact ho

theorem apply_frequency_emphasis_length (sr : ℝ) (signal : List ℝ)
    (d : List (String × ℝ)) (h : signal ≠ []) :
    ∃ o, apply_frequency_emphasis sr signal d = some o ∧
      o.length = signal.length := by
  unfold apply_frequency_emphasis
  rw [rfft_of_ne_nil signal h]
  exact ⟨_, rfl, irfft_length _ _⟩

theorem apply_frequency_adjustments_length (sr : ℝ) (signal : List ℝ)
    (hfb lfr : ℝ) (h : signal ≠ []) :
    ∃ o, apply_frequency_adjustments sr signal hfb lfr = some o ∧
      o.length = signal.length := by
  unfold apply_frequency_adjustments
  rw [rfft_of_ne_nil signal h]
  exact ⟨_, rfl, irfft_length _ _⟩

end AudioProcessor

namespace AudioFeatureExtractor

theorem getD_replicate_zero (n k : ℕ) :
    (List.replicate n (0 : ℝ)).getD k 0 = 0 := by
  induction n generalizing k with
  | zero => simp
  | succ m ih =>
    cases k with
    | zero => simp [List.replicate]
    | succ j =>
      rw [List.replicate_succ, List.getD_cons_succ]
      exact ih j

theorem dftCoeff_replicate_zero (n j : ℕ) :
    dftCoeff (List.replicate n (0 : ℝ)) j = 0 := by
  unfold dftCoeff
  apply Finset.sum_eq_zero
  intro k _
  rw [getD_replicate_zero]
  simp

theorem replicate_zero_ne_nil (n : ℕ) (h : 0 < n) :
    (List.replicate n (0 : ℝ)) ≠ [] := by
  intro he
  have := congrArg List.length he
  rw [List.length_replicate] at this
  simp at this
  omega

theorem compute_spectral_centroid_of_rfft (sr : ℝ) (signal : List ℝ)
    (h : signal ≠ []) :
    compute_spectral_centroid sr signal =
      some
        (if 0 < (((List.range (rfftLength signal.length)).map
            (dftCoeff signal)).map Complex.abs).sum then
          (List.zipWith (· * ·) (rfftfreq signal.length sr)
            (((List.range (rfftLength signal.length)).map
              (dftCoeff signal)).map Complex.abs)).sum /
            (((List.range (rfftLength signal.length)).map
              (dftCoeff signal)).map Complex.abs).sum
        else 0) := by
  unfold compute_spectral_centroid
  rw [rfft_of_ne_nil signal h]
  rfl

theorem centroid_replicate_zero (sr : ℝ) (n : ℕ) (h : 0 < n) :
    compute_spectral_centroid sr (List.replicate n (0 : ℝ)) = some 0 := by
  rw [compute_spectral_centroid_of_rfft sr _ (replicate_zero_ne_nil n h)]
  have hz : (((List.range (rfftLength (List.replicate n (0 : ℝ)).length)).map
      (dftCoeff (List.replicate n (0 : ℝ)))).map Complex.abs).sum = 0 := by
    apply List.sum_eq_zero
    intro x hx
    simp only [List.map_map, List.mem_map, Function.comp] at hx
    obtain ⟨j, _, rfl⟩ := hx
    rw [dftCoeff_replicate_zero]
    simp
  rw [hz]
  simp

theorem magnitude_of_zero_spectrum (signal : List ℝ)
    (hz : ∀ j, dftCoeff signal j = 0) :
    (((List.range (rfftLength signal.length)).map (dftCoeff signal)).map
      Complex.abs) = List.replicate (rfftLength signal.length) 0 := by
  rw [List.eq_replicate_iff]
  constructor
  · rw [List.length_map, List.length_map, List.length_range]
  · intro b hb
    simp only [List.map_map, List.mem_map, Function.comp] at hb
    obtain ⟨j, _, rfl⟩ := hb
    rw [hz j]
    simp

theorem npCumsum_replicate_zero (m : ℕ) :
    npCumsum (List.replicate m (0 : ℝ)) = List.replicate m 0 := by
  unfold npCumsum
  rw [List.length_replicate, List.eq_replicate_iff]
  constructor
  · rw [List.length_map, List.length_range]
  · intro b hb
    simp only [List.mem_map, List.mem_range] at hb
    obtain ⟨i, _, rfl⟩ := hb
    rw [List.take_replicate, List.sum_replicate]
    simp

theorem getLast?_replicate_zero (m : ℕ) (h : 0 < m) :
    (List.replicate m (0 : ℝ)).getLast? = some 0 := by
  obtain ⟨k, rfl⟩ := Nat.exists_eq_succ_of_ne_zero (by omega : m ≠ 0)
  rw [List.replicate_succ', List.getLast?_concat]

theorem rfftfreq_getD_zero (n : ℕ) (sr : ℝ) :
    (rfftfreq n sr).getD 0 0 = 0 := by
  unfold rfftfreq rfftLength
  rw [List.range_succ_eq_map, List.map_cons]
  simp

theorem rolloff_replicate_zero (sr : ℝ) (n : ℕ) (h : 0 < n) :
    compute_spectral_rolloff sr (List.replicate n (0 : ℝ)) = some 0 := by
  have hne := replicate_zero_ne_nil n h
  have hz : ∀ j, dftCoeff (List.replicate n (0 : ℝ)) j = 0 :=
    dftCoeff_replicate_zero n
  have hmag := magnitude_of_zero_spectrum _ hz
  unfold compute_spectral_rolloff
  rw [rfft_of_ne_nil _ hne]
  show some _ = some 0
  rw [Option.some_inj]
  rw [List.length_replicate] at hmag
  simp only [hmag, npCumsum_replicate_zero, List.length_replicate,
    getLast?_replicate_zero (rfftLength n) (by unfold rfftLength; omega),
    Option.getD_some]
  have hfilter : (List.range (rfftLength n)).filter
      (fun i => decide ((0.85 : ℝ) * 0 ≤
        (List.replicate (rfftLength n) (0 : ℝ)).getD i 0)) =
      List.range (rfftLength n) := by
    apply List.filter_eq_self.mpr
    intro i _
    rw [getD_replicate_zero]
    norm_num
  rw [hfilter]
  unfold rfftLength
  rw [List.range_succ_eq_map]
  exact rfftfreq_getD_zero n sr

theorem noise_level_replicate_zero (n : ℕ) :
    estimate_noise_level (List.replicate n (0 : ℝ)) = -200 := by
  unfold estimate_noise_level
  have h1 : (List.replicate n (0 : ℝ)).map (· ^ 2) = List.replicate n 0 := by
    rw [List.map_replicate]
    norm_num
  rw [h1]
  have h2 : npMean (List.replicate n (0 : ℝ)) = 0 := by
    unfold npMean
    rw [List.sum_replicate]
    simp
  rw [h2, Real.sqrt_zero]
  show (20 : ℝ) * Real.logb 10 (max 0 (1e-10)) = -200
  have h3 : max (0 : ℝ) (1e-10) = 1e-10 := max_eq_right (by norm_num)
  rw [h3]
  have h4 : Real.logb 10 (1e-10) = -10 := by
    have he : (10 : ℝ) ^ (-10 : ℝ) = 1e-10 := by
      rw [show ((-10 : ℝ)) = ((-10 : ℤ) : ℝ) by norm_num, Real.rpow_intCast]
      norm_num
    rw [← he, Real.logb_rpow (by norm_num) (by norm_num)]
  rw [h4]
  norm_num

theorem rfft_isSome_parts (sr : ℝ) (signal : List ℝ) (h : signal ≠ []) :
    (∃ c, compute_spectral_centroid sr signal = some c) ∧
    (∃ r, compute_spectral_rolloff sr signal = some r) ∧
    (∃ p, estimate_speech_probability sr signal = some p) ∧
    (∃ t, classify_noise sr signal = some t) ∧
    (∃ e, classify_sound_event sr signal = some e) := by
  have hrf := rfft_of_ne_nil signal h
  have hc : ∃ c, compute_spectral_centroid sr signal = some c := by
    unfold compute_spectral_centroid
    rw [hrf]
    exact ⟨_, rfl⟩
  obtain ⟨c, hcv⟩ := hc
  have hp : ∃ p, estimate_speech_probability sr signal = some p := by
    unfold estimate_speech_probability
    rw [hcv]
    exact ⟨_, rfl⟩
  obtain ⟨p, hpv⟩ := hp
  refine ⟨⟨c, hcv⟩, ?_, ⟨p, hpv⟩, ?_, ?_⟩
  · unfold compute_spectral_rolloff
    rw [hrf]
    exact ⟨_, rfl⟩
  · unfold classify_noise
    rw [hcv]
    exact ⟨_, rfl⟩
  · unfold classify_sound_event
    rw [hpv]
    exact ⟨_, rfl⟩

theorem extract_features_components (sr : ℝ) (d : Option ℝ) (signal : List ℝ)
    (c r p : ℝ) (nt se : String)
    (hc : compute_spectral_centroid sr signal = some c)
    (hr : compute_spectral_rolloff sr signal = some r)
    (hp : estimate_speech_probability sr signal = some p)
    (hnt : classify_noise sr signal = some nt)
    (hse : classify_sound_event sr signal = some se) :
    extract_features sr signal d =
      some { spectral_centroid := some c
             spectral_rolloff := some r
             zero_crossing_rate := some (compute_zcr signal)
             onset_strength := some (compute_onset_strength signal)
             noise_level_db := some (estimate_noise_level signal)
             speech_probability := some p
             is_silence := decide (estimate_noise_level signal < 30)
             is_speech_present := decide (0.5 < p)
             noise_type := some nt
             sound_event_class := some se
             duration_ms := some (match d with
               | some dv => dv
               | none => signal.length / sr * 1000)
             sample_rate := sr } := by
  unfold extract_features
  rw [hc, hr, hp, hnt, hse]
  rfl

theorem sound_event_replicate_zero (sr : ℝ) (n : ℕ) (h : 0 < n) :
    classify_sound_event sr (List.replicate n (0 : ℝ)) = some "silence" := by
  obtain ⟨_, _, ⟨p, hp⟩, _, _⟩ :=
    rfft_isSome_parts sr _ (replicate_zero_ne_nil n h)
  unfold classify_sound_event
  rw [hp]
  show some _ = some "silence"
  rw [Option.some_inj]
  show (if estimate_noise_level (List.replicate n (0 : ℝ)) < 30 then "silence"
    else if (0.7 : ℝ) < p then "speech"
    else if (60 : ℝ) < estimate_noise_level (List.replicate n (0 : ℝ)) then "loud_noise"
    else "background_sound") = "silence"
  rw [noise_level_replicate_zero n]
  rw [if_pos (by norm_num : (-200 : ℝ) < 30)]

end AudioFeatureExtractor

open AudioFeatureExtractor AudioProcessor

/-! ## Claim theorems: audio layer -/

/-- Counterexample to claim C5: on the empty signal, `extract_features`
does not return conservative defaults — it propagates the `ValueError`
raised by `np.fft.rfft` on zero points (modelled `none`), from inside
`_compute_spectral_centroid`. -/
theorem extract_features_raises_on_empty_cex :
    extract_features 16000 ([] : List ℝ) none = none := by
  simp [extract_features, compute_spectral_centroid, rfft]

/-- Claim C5 amended: `extract_features` returns (without raising) for
every nonempty signal, and on the degenerate all-zero signal the
spectral fields default to 0 and the noise floor sits at the
`20·log10(1e-10) = −200` dB floor; but on the empty signal the
`ValueError` from `np.fft.rfft` propagates (see the counterexample) —
there is no conservative-defaults path.  Non-finite samples are outside
the numeric model. -/
theorem extract_features_total_and_defaults :
    (∀ (sr : ℝ) (d : Option ℝ) (signal : List ℝ), signal ≠ [] →
      ∃ f, extract_features sr signal d = some f) ∧
    (∀ (sr : ℝ) (d : Option ℝ) (n : ℕ), 0 < n →
      ∃ f, extract_features sr (List.replicate n 0) d = some f ∧
        f.spectral_centroid = some 0 ∧ f.spectral_rolloff = some 0 ∧
        f.noise_level_db = some (-200)) := by
  constructor
  · intro sr d signal h
    obtain ⟨⟨c, hc⟩, ⟨r, hr⟩, ⟨p, hp⟩, ⟨nt, hnt⟩, ⟨se, hse⟩⟩ :=
      rfft_isSome_parts sr signal h
    exact ⟨_, extract_features_components sr d signal c r p nt se hc hr hp hnt hse⟩
  · intro sr d n h
    obtain ⟨⟨c, hc⟩, ⟨r, hr⟩, ⟨p, hp⟩, ⟨nt, hnt⟩, ⟨se, hse⟩⟩ :=
      rfft_isSome_parts sr _ (replicate_zero_ne_nil n h)
    have hc0 : c = 0 := by
      have h0 := centroid_replicate_zero sr n h
      rw [hc] at h0
      exact Option.some_inj.mp h0
    have hr0 : r = 0 := by
      have h0 := rolloff_replicate_zero sr n h
      rw [hr] at h0
      exact Option.some_inj.mp h0
    refine ⟨_, extract_features_components sr d _ c r p nt se hc hr hp hnt hse,
      ?_, ?_, ?_⟩
    · show some c = some 0
      rw [hc0]
    · show some r = some 0
      rw [hr0]
    · show some (estimate_noise_level (List.replicate n (0 : ℝ))) = some (-200)
      rw [noise_level_replicate_zero n]

/-- Witness for the amended C5 at the concrete all-zero signal of
length 3. -/
theorem extract_features_total_and_defaults_witness :
    (List.replicate 3 (0 : ℝ)) ≠ [] ∧
    (∃ f, extract_features 16000 (List.replicate 3 (0 : ℝ)) none = some f ∧
      f.spectral_centroid = some 0 ∧ f.spectral_rolloff = some 0 ∧
      f.noise_level_db = some (-200)) :=
  ⟨replicate_zero_ne_nil 3 (by norm_num),
    extract_features_total_and_defaults.2 16000 none 3 (by norm_num)⟩

/-- Claim C8: an all-zero waveform yields a noise floor below 30 dB
(indeed −200 dB), the silence flag set, and the sound event "silence";
and every extracted feature set satisfies speech-present ⇔ speech
probability > 0.5 and silence ⇔ noise floor < 30 dB. -/
theorem extractor_silence_and_flags :
    (∀ (sr : ℝ) (d : Option ℝ) (n : ℕ), 0 < n →
      ∃ f, extract_features sr (List.replicate n 0) d = some f ∧
        (∃ nl, f.noise_level_db = some nl ∧ nl < 30) ∧
        f.is_silence = true ∧ f.sound_event_class = some "silence") ∧
    (∀ (sr : ℝ) (d : Option ℝ) (signal : List ℝ) (f : AudioFeatureSet),
      extract_features sr signal d = some f →
      ∃ p nl, f.speech_probability = some p ∧ f.noise_level_db = some nl ∧
        (f.is_speech_present = true ↔ 0.5 < p) ∧
        (f.is_silence = true ↔ nl < 30)) := by
  constructor
  · intro sr d n h
    obtain ⟨⟨c, hc⟩, ⟨r, hr⟩, ⟨p, hp⟩, ⟨nt, hnt⟩, ⟨se, hse⟩⟩ :=
      rfft_isSome_parts sr _ (replicate_zero_ne_nil n h)
    have hse0 : se = "silence" := by
      have h0 := sound_event_replicate_zero sr n h
      rw [hse] at h0
      exact Option.some_inj.mp h0
    refine ⟨_, extract_features_components sr d _ c r p nt se hc hr hp hnt hse,
      ⟨-200, ?_, by norm_num⟩, ?_, ?_⟩
    · show some (estimate_noise_level (List.replicate n (0 : ℝ))) = some (-200)
      rw [noise_level_replicate_zero n]
    · show decide (estimate_noise_level (List.replicate n (0 : ℝ)) < 30) = true
      rw [noise_level_replicate_zero n]
      exact decide_eq_true (by norm_num)
    · show some se = some "silence"
      rw [hse0]
  · intro sr d signal f h
    simp only [extract_features, Option.bind_eq_bind, Option.bind_eq_some,
      Option.pure_def, Option.some_inj] at h
    obtain ⟨c, hc, r, hr, p, hp, nt, hnt, se, hse, hfin⟩ := h
    subst hfin
    exact ⟨p, estimate_noise_level signal, rfl, rfl,
      decide_eq_true_iff, decide_eq_true_iff⟩

/-- Witness for C8 at the concrete all-zero signal of length 160. -/
theorem extractor_silence_and_flags_witness :
    (0 : ℕ) < 160 ∧
    ∃ f, extract_features 16000 (List.replicate 160 (0 : ℝ)) none = some f ∧
      f.is_silence = true ∧ f.sound_event_class = some "silence" ∧
      ∃ p nl, f.speech_probability = some p ∧ f.noise_level_db = some nl ∧
        (f.is_speech_present = true ↔ 0.5 < p) ∧
        (f.is_silence = true ↔ nl < 30) := by
  obtain ⟨f, hf, _, hsil, hev⟩ :=
    extractor_silence_and_flags.1 16000 none 160 (by norm_num)
  obtain ⟨p, nl, h1, h2, h3, h4⟩ :=
    extractor_silence_and_flags.2 16000 none _ f hf
  exact ⟨by norm_num, f, hf, hsil, hev, p, nl, h1, h2, h3, h4⟩

theorem apply_noise_gate_two_none (a b t : ℝ) :
    AudioProcessor.apply_noise_gate [a, b] t = none := by
  obtain ⟨c, hc, hlen⟩ := npConvolveSame_of_ne
    (([a, b] : List ℝ).map fun x =>
      if ((10 : ℝ) ^ (t / 20)) * 0.1 < |x| then (1 : ℝ) else 0)
    (List.replicate 100 ((1 : ℝ) / 100)) (by simp) (by simp)
  simp only [AudioProcessor.apply_noise_gate]
  rw [hc]
  show npMulBroadcast [a, b] c = none
  have hclen : c.length = 100 := by
    rw [hlen, List.length_map, List.length_replicate]
    simp
  apply npMulBroadcast_none
  · rw [hclen]
    simp
  · simp
  · rw [hclen]
    norm_num

/-- Counterexample to claim C2: on a two-sample waveform, the noise
gate's 100-point smoothing window makes `np.convolve(..., 'same')`
return 100 samples, and multiplying them into the 2-sample signal is a
numpy broadcast error — `apply_strategy` raises instead of returning a
same-length clipped waveform. -/
theorem apply_strategy_short_signal_cex :
    AudioProcessor.apply_strategy 16000 [0, 0] gateOnlyStrategy = none := by
  simp only [AudioProcessor.apply_strategy, gateOnlyStrategy]
  rw [if_neg (lt_irrefl (0 : ℝ))]
  simp only [Option.pure_def, Option.bind_eq_bind, Option.some_bind]
  rw [apply_noise_gate_two_none 0 0 (-40)]
  rfl

/-- Claim C2 amended: for every waveform of at least 100 samples (the
noise gate's smoothing window), `apply_strategy` succeeds, the output
has exactly the length of the input, and every output sample lies in
[−1, 1]; waveforms of 2 to 99 samples instead raise a broadcast
`ValueError` in the noise gate (see the counterexample). -/
theorem apply_strategy_same_length_clipped (sr : ℝ) (signal : List ℝ)
    (strategy : AudioProcessor.AudioProcessingStrategy)
    (h : 100 ≤ signal.length) :
    ∃ out, AudioProcessor.apply_strategy sr signal strategy = some out ∧
      out.length = signal.length ∧ ∀ x ∈ out, -1 ≤ x ∧ x ≤ 1 := by
  have hne : signal ≠ [] := by
    intro he
    rw [he] at h
    simp at h
  have h1 : ∃ p1, (if 0 < strategy.noise_suppression_strength then
      AudioProcessor.apply_noise_suppression signal strategy.noise_suppression_strength
    else pure signal) = some p1 ∧ p1.length = signal.length := by
    split
    · exact AudioProcessor.apply_noise_suppression_length signal _ hne
    · exact ⟨signal, rfl, rfl⟩
  obtain ⟨p1, hp1, hl1⟩ := h1
  have h1len : 100 ≤ p1.length := by omega
  obtain ⟨p2, hp2, hl2⟩ :=
    AudioProcessor.apply_noise_gate_length p1 strategy.noise_gate_threshold h1len
  have h2len : 100 ≤ p2.length := by omega
  have h2ne : p2 ≠ [] := by
    intro he
    rw [he] at h2len
    simp at h2len
  have h3 : ∃ p3, (if 0 < strategy.speech_enhancement_level then
      AudioProcessor.apply_speech_enhancement sr p2 strategy.speech_enhancement_level
    else pure p2) = some p3 ∧ p3.length = p2.length := by
    split
    · exact AudioProcessor.apply_speech_enhancement_length sr p2 _ h2ne
    · exact ⟨p2, rfl, rfl⟩
  obtain ⟨p3, hp3, hl3⟩ := h3
  have h3len : 50 ≤ p3.length := by omega
  have h4 : ∃ p4, (if 1 < strategy.dynamic_range_compression_ratio then
      AudioProcessor.apply_compression p3 strategy.dynamic_range_compression_ratio
    else pure p3) = some p4 ∧ p4.length = p3.length := by
    split
    · exact AudioProcessor.apply_compression_length p3 _ h3len
    · exact ⟨p3, rfl, rfl⟩
  obtain ⟨p4, hp4, hl4⟩ := h4
  have h4ne : p4 ≠ [] := by
    intro he
    rw [he] at hl4
    simp at hl4
    omega
  have h5 : ∃ p5, (if strategy.frequency_emphasis ≠ [] then
      AudioProcessor.apply_frequency_emphasis sr p4 strategy.frequency_emphasis
    else pure p4) = some p5 ∧ p5.length = p4.length := by
    split
    · exact AudioProcessor.apply_frequency_emphasis_length sr p4 _ h4ne
    · exact ⟨p4, rfl, rfl⟩
  obtain ⟨p5, hp5, hl5⟩ := h5
  have h5ne : p5 ≠ [] := by
    intro he
    rw [he] at hl5
    simp at hl5
    omega
  obtain ⟨p6, hp6, hl6⟩ := AudioProcessor.apply_frequency_adjustments_length sr p5
    strategy.high_frequency_boost strategy.low_frequency_reduction h5ne
  simp only [Option.pure_def] at hp1 hp3 hp4 hp5
  refine ⟨(p6.map fun x => x * strategy.adaptive_gain).map fun x => max (-1) (min 1 x),
    ?_, ?_, ?_⟩
  · simp only [AudioProcessor.apply_strategy, Option.pure_def, Option.bind_eq_bind,
      hp1, Option.some_bind, hp2, hp3, hp4, hp5, hp6]
  · rw [List.length_map, List.length_map]
    omega
  · intro x hx
    simp only [List.mem_map] at hx
    obtain ⟨y, _, rfl⟩ := hx
    exact ⟨le_max_left _ _, max_le (by norm_num) (min_le_left _ _)⟩

/-- Witness for the amended C2 at a concrete 100-sample waveform. -/
theorem apply_strategy_same_length_clipped_witness :
    100 ≤ (List.replicate 100 (0 : ℝ)).length ∧
    ∃ out, AudioProcessor.apply_strategy 16000 (List.replicate 100 (0 : ℝ))
        gateOnlyStrategy = some out ∧
      out.length = (List.replicate 100 (0 : ℝ)).length ∧
      ∀ x ∈ out, -1 ≤ x ∧ x ≤ 1 :=
  ⟨by simp, apply_strategy_same_length_clipped 16000 _ gateOnlyStrategy (by simp)⟩

end HearingAid
